import Mathlib

/-!
Verification of the trace-based-model (TBM) cycle-accurate simulator core.

This file shallowly embeds the parts of the Python sources relevant to the
spec claims and proves/refutes each claim:

* `src/tbm/buffered_queue.py` — `BQ` (BufferedQueue);
* `src/scoreboard.py`         — `SB` (Preemptive) and `VecSB` (VecPreemptive);
* `src/tbm/scalar_pipe.py`    — `ScalarPipe`;
* `src/tbm/vector_pipe.py`    — `VectorPipe`;
* `src/tbm/fetch_unit.py`     — `Fetch`;
* `src/tbm/sched_unit.py`     — `Sched`;
* `src/exec_unit.py`          — `Exec`;
* `src/tbm/cpu.py`            — the deadlock watchdog of `CPU.simulate`;
* `src/tbm/counter.py`        — `Counter`.

Python `dict`s are modelled as association lists (insertion ordered, like
CPython dicts), Python `set`s as duplicate-free lists, `deque`s as lists.
Machine integers do not overflow in Python, so counters are `Nat` (they are
only ever incremented) and addresses are `Nat`.  Fallible Python code
(exceptions, `sys.exit`) is modelled with `Except PyError`.
-/

namespace TBM

/-- Python exceptions / aborts that the modelled code can raise. -/
inductive PyError where
  | indexError
  | attributeError (attr : String)
  | assertionError
  | sysExit (code : Nat)
deriving DecidableEq

/-- The two phases of a cycle (`interfaces.CyclePhase`). -/
inductive Phase where
  | TICK
  | TOCK
deriving DecidableEq

/-- The validated `config.branch_prediction` value: `"perfect"` or `"none"`
(schema-validated, `fetch_unit.py` line 116 asserts these are the only
options).  `nopred` stands for the string `"none"`. -/
inductive BP where
  | perfect
  | nopred
deriving DecidableEq

/-! ### Association-list helpers (model of Python `dict` / `set`) -/

/-- `dict.get(k)` / `m[k]` lookup (as `Option`). -/
def alookup [DecidableEq κ] (k : κ) : List (κ × β) → Option β
  | [] => none
  | (k', v) :: m => if k = k' then some v else alookup k m

/-- `m[k] = v`: overwrite in place, or append a new key (CPython dicts keep
insertion order). -/
def aset [DecidableEq κ] (k : κ) (v : β) : List (κ × β) → List (κ × β)
  | [] => [(k, v)]
  | (k', v') :: m => if k = k' then (k, v) :: m else (k', v') :: aset k v m

/-- `del m[k]` (no-op when the key is absent, where Python would raise
`KeyError`; all modelled call sites delete present keys). -/
def aremove [DecidableEq κ] (k : κ) : List (κ × β) → List (κ × β)
  | [] => []
  | (k', v') :: m => if k = k' then m else (k', v') :: aremove k m

/-- Update the value at an existing key (no-op when absent). -/
def aupdate [DecidableEq κ] (k : κ) (f : β → β) : List (κ × β) → List (κ × β)
  | [] => []
  | (k', v) :: m => if k = k' then (k, f v) :: m else (k', v) :: aupdate k f m

/-- `m.setdefault(k, d)` followed by a mutation `f` of the entry. -/
def aupsert [DecidableEq κ] (k : κ) (d : β) (f : β → β) : List (κ × β) → List (κ × β)
  | [] => [(k, f d)]
  | (k', v) :: m => if k = k' then (k, f v) :: m else (k', v) :: aupsert k d f m

/-- `s.add(x)` on a Python set (modelled as a duplicate-free list). -/
def sinsert [DecidableEq α] (x : α) (s : List α) : List α :=
  if x ∈ s then s else s ++ [x]

/-- `s.discard(x)` / `s.remove(x)` on a Python set. -/
def sremove [DecidableEq α] (x : α) (s : List α) : List α :=
  s.filter (fun y => y ≠ x)

/-! ### BufferedQueue (`src/tbm/buffered_queue.py`)

`BufferedQueue(collections.deque[T])` holds the *committed* side as the
deque contents, the *pending* side in `self._buff`, and an optional
capacity `self._size`. -/

structure BQ (α : Type) where
  committed : List α
  buff : List α
  size : Option Nat
deriving DecidableEq

/-- `BufferedQueue.__init__` (lines 39-47): `size` of `None` or `-1` means
an unbounded queue. -/
def BQ.init (α : Type) (size : Option Int) : BQ α :=
  { committed := []
    buff := []
    size := match size with
            | none => none
            | some s => if s = -1 then none else some s.toNat }

/-- `len(q)` — only the committed side. -/
def BQ.lenq (q : BQ α) : Nat := q.committed.length

/-- `BufferedQueue.is_buffer_full` (lines 49-53). -/
def BQ.is_buffer_full (q : BQ α) : Bool :=
  match q.size with
  | some s => decide (s ≤ q.committed.length + q.buff.length)
  | none => false

/-- `BufferedQueue.buffer` (lines 55-56). -/
def BQ.buffer (q : BQ α) (x : α) : BQ α :=
  { q with buff := q.buff ++ [x] }

/-- `BufferedQueue.flush` (lines 58-64).  If everything fits (or the queue
is unbounded) move all of `_buff` to the committed side and clear `_buff`;
otherwise pop exactly `_size - len(self)` items from the front of `_buff`
onto the committed side (`for _ in range(self._size - len(self)):
self.append(self._buff.popleft())`) — the rest of `_buff` is left in
place. -/
def BQ.flush (q : BQ α) : BQ α :=
  match q.size with
  | none => { q with committed := q.committed ++ q.buff, buff := [] }
  | some s =>
    if q.committed.length + q.buff.length ≤ s then
      { q with committed := q.committed ++ q.buff, buff := [] }
    else
      { q with committed := q.committed ++ q.buff.take (s - q.committed.length)
               buff := q.buff.drop (s - q.committed.length) }

/-- `BufferedQueue.chain` (lines 66-67): committed then pending. -/
def BQ.chain (q : BQ α) : List α := q.committed ++ q.buff

/-- `BufferedQueue.full` (lines 87-88): committed side only. -/
def BQ.full (q : BQ α) : Bool :=
  match q.size with
  | some s => decide (s ≤ q.committed.length)
  | none => false

/-- `BufferedQueue.dequeue` (lines 91-92): `return self.popleft()`;
`deque.popleft` raises `IndexError` on an empty deque. -/
def BQ.dequeue (q : BQ α) : Except PyError (α × BQ α) :=
  match q.committed with
  | [] => .error .indexError
  | x :: xs => .ok (x, { q with committed := xs })

/-- `BufferedQueue.peek` (lines 95-96): `self[0] if self else None`. -/
def BQ.peek (q : BQ α) : Option α := q.committed.head?

/-- `q.dequeue()` at a call site that has already checked non-emptiness
(the result object is discarded by the caller). -/
def BQ.dequeueD (q : BQ α) : BQ α := { q with committed := q.committed.tail }

/-! ### Claims C1, C8 and C9 (BufferedQueue) -/

/-- A capacity-1 queue with two pending items (over-subscription). -/
def qC1 : BQ Nat := ⟨[], [10, 11], some 1⟩

/-! ### Instruction (external collaborator)

`instruction.py` is not part of `src/`; the core only reads the record
fields below. -/

/-- Modelled from the spec: the immutable `Instruction` record produced by
the external trace decoder (spec §3).  `uid` models Python object identity
(spec §9: "Instruction identity as a hash key maps cleanly to an opaque
integer id handed out at decode time").  `inputs_by_type` /
`outputs_by_type` map register-file ids to register-name sequences;
`lmul ∈ {1/8, 1/4, 1/2, 1, 2, 4, 8}` and `max_emul()` is the
effective-multiplier used to size slice sequences. -/
structure Instruction where
  uid : Nat
  mnemonic : String := ""
  addr : Nat := 0
  operands : List String := []
  is_branch : Bool := false
  is_flush : Bool := false
  is_nop : Bool := false
  inputs_by_type : List (String × List String) := []
  outputs_by_type : List (String × List String) := []
  loads : List Nat := []
  stores : List Nat := []
  lmul : Option ℚ := none
  max_emul : ℚ := 1
deriving DecidableEq

/-! ### Scoreboard (`src/scoreboard.py`, class `Preemptive`)

Dependency maps are keyed by instruction; their values map register names
to producers (`rw_deps`, `ww_deps`: `Option Instruction`, `None` meaning
the value is already architecturally visible) or to reader sets
(`wr_deps`). -/

structure SB where
  read_ports : Option Nat := none
  dedicated_read_ports : List String := []
  write_ports : Option Nat := none
  dedicated_write_ports : List String := []
  rw_deps : List (Instruction × List (String × Option Instruction)) := []
  ww_deps : List (Instruction × List (String × Option Instruction)) := []
  wr_deps : List (Instruction × List (String × List Instruction)) := []
  writes : List (String × Option Instruction) := []
  reads : List (String × List Instruction) := []
  issued : List Instruction := []
  write_buff : List (Instruction × List String) := []
  used_read_ports : Nat := 0
  used_write_ports : Nat := 0
deriving DecidableEq

/-- `self.rw_deps[instr][reg]` (a `KeyError` in Python when the accesses
were never inserted; modelled as `None`, which all call sites treat as
"no in-flight producer"). -/
def SB.rwDep (sb : SB) (i : Instruction) (r : String) : Option Instruction :=
  (alookup r ((alookup i sb.rw_deps).getD [])).getD none

/-- `self.ww_deps[instr][reg]` (same convention as `SB.rwDep`). -/
def SB.wwDep (sb : SB) (i : Instruction) (r : String) : Option Instruction :=
  (alookup r ((alookup i sb.ww_deps).getD [])).getD none

/-- `self.wr_deps[instr][reg]` (missing entries are the empty set, as with
`dict.get(reg, set())`). -/
def SB.wrDep (sb : SB) (i : Instruction) (r : String) : List Instruction :=
  (alookup r ((alookup i sb.wr_deps).getD [])).getD []

/-- `self.writes[reg]` (a `defaultdict` whose default is `None`). -/
def SB.writesOf (sb : SB) (r : String) : Option Instruction :=
  (alookup r sb.writes).getD none

/-- `self.reads[reg]` (a `defaultdict` whose default is the empty set). -/
def SB.readsOf (sb : SB) (r : String) : List Instruction :=
  (alookup r sb.reads).getD []

/-- `self.write_buff[instr]` (a `defaultdict` whose default is the empty
set). -/
def SB.writeBuffOf (sb : SB) (i : Instruction) : List String :=
  (alookup i sb.write_buff).getD []

/-- `Preemptive.insert_accesses` (lines 101-125).  The two source
assertions (`self.writes[reg] != instr`: an instruction never reads its own
write and never writes the same register twice) are not modelled; they hold
at every modelled call site. -/
def SB.insert_accesses (sb : SB) (i : Instruction) (reg_reads reg_writes : List String) : SB :=
  let sb := reg_reads.foldl (fun sb reg =>
    { sb with
      rw_deps := aupsert i [] (aset reg (sb.writesOf reg)) sb.rw_deps
      reads := aupsert reg [] (sinsert i) sb.reads }) sb
  reg_writes.foldl (fun sb reg =>
    { sb with
      ww_deps := aupsert i [] (aset reg (sb.writesOf reg)) sb.ww_deps
      wr_deps := aupsert i []
        (aupsert reg [] (fun s =>
          ((sb.readsOf reg).filter (fun j => j ≠ i)).foldl
            (fun s d => sinsert d s) s)) sb.wr_deps
      writes := aset reg (some i) sb.writes
      reads := aset reg [] sb.reads }) sb

/-- `Preemptive.read_port_regs` (lines 127-137): the regs that need a
shared (non-dedicated) read port; regs with a non-`None` `rw_deps` entry
are read from the write buffer and are free. -/
def SB.read_port_regs (sb : SB) (i : Instruction) (regs : List String) : List String :=
  regs.filter (fun r =>
    decide (r ∉ sb.dedicated_read_ports) && (sb.rwDep i r).isNone)

/-- `Preemptive.check_read_ports` (lines 139-144). -/
def SB.check_read_ports (sb : SB) (i : Instruction) (regs : List String) : Bool :=
  match sb.read_ports with
  | none => true
  | some rp => decide (sb.used_read_ports + (sb.read_port_regs i regs).length ≤ rp)

/-- The dependency part of `Preemptive.can_read` (lines 151-155): every
producer dependency is either `None` or already has `r` in its write
buffer.  (Factored out because `VecPreemptive` inherits it while
overriding only the port logic.) -/
def SB.read_deps_ok (sb : SB) (i : Instruction) (regs : List String) : Bool :=
  regs.all (fun r =>
    match sb.rwDep i r with
    | none => true
    | some d => decide (r ∈ sb.writeBuffOf d))

/-- `Preemptive.can_read` (lines 147-155). -/
def SB.can_read (sb : SB) (i : Instruction) (regs : List String) : Bool :=
  sb.check_read_ports i regs && sb.read_deps_ok i regs

/-- `Preemptive.write_port_regs` (lines 157-161). -/
def SB.write_port_regs (sb : SB) (regs : List String) : List String :=
  regs.filter (fun r => decide (r ∉ sb.dedicated_write_ports))

/-- `Preemptive.check_write_ports` (lines 163-168). -/
def SB.check_write_ports (sb : SB) (regs : List String) : Bool :=
  match sb.write_ports with
  | none => true
  | some wp => decide (sb.used_write_ports + (sb.write_port_regs regs).length ≤ wp)

/-- The dependency part of `Preemptive.can_write` (lines 175-176): no
remaining `ww_deps[i][r]` producer and no remaining `wr_deps[i][r]`
waiters. -/
def SB.write_deps_ok (sb : SB) (i : Instruction) (regs : List String) : Bool :=
  !(regs.any (fun r => (sb.wwDep i r).isSome) ||
    regs.any (fun r => !(sb.wrDep i r).isEmpty))

/-- `Preemptive.can_write` (lines 171-176). -/
def SB.can_write (sb : SB) (i : Instruction) (regs : List String) : Bool :=
  sb.check_write_ports regs && sb.write_deps_ok i regs

/-- The dependency part of `Preemptive.read` (lines 185-206): removes each
reg from `rw_deps[i]`, removes `i` from every `wr_deps[*][reg]` set and
from `reads[reg]`; when `rw_deps[i]` becomes empty the entry is deleted
and, if `i` also has no `ww_deps` entry, `i` leaves `issued`. -/
def SB.read_deps (sb : SB) (i : Instruction) (regs : List String) : SB :=
  let sb := regs.foldl (fun sb reg =>
    { sb with
      rw_deps := aupdate i (aremove reg) sb.rw_deps
      wr_deps := sb.wr_deps.map (fun jm =>
        (jm.1, aupdate reg (sremove i) jm.2))
      reads := aupdate reg (sremove i) sb.reads }) sb
  if ((alookup i sb.rw_deps).getD []).isEmpty then
    let sb := { sb with rw_deps := aremove i sb.rw_deps }
    if (alookup i sb.ww_deps).isNone then
      { sb with issued := sremove i sb.issued }
    else sb
  else sb

/-- `Preemptive.read` (lines 182-206): charge shared read ports
(`update_used_read_ports`, lines 178-179), then update the dependency
maps. -/
def SB.read (sb : SB) (i : Instruction) (regs : List String) : SB :=
  let sb := { sb with
    used_read_ports := sb.used_read_ports + (sb.read_port_regs i regs).length }
  sb.read_deps i regs

/-- `Preemptive.buff_write` (lines 209-210). -/
def SB.buff_write (sb : SB) (i : Instruction) (regs : List String) : SB :=
  { sb with write_buff :=
      aupsert i [] (fun s => regs.foldl (fun s r => sinsert r s) s) sb.write_buff }

/-- The dependency part of `Preemptive.write` (lines 219-240): per reg,
deletes `ww_deps[i][reg]` and `wr_deps[i][reg]`, replaces `i` by `None` in
every `rw_deps[*][reg]` and `ww_deps[*][reg]` entry holding `i`, and
clears `writes[reg]` when it is `i`.  When `ww_deps[i]` becomes empty both
`ww_deps[i]` and `wr_deps[i]` are deleted and, if `i` has no `rw_deps`
entry, `i` leaves `issued`.  Finally `write_buff[i]` is dropped. -/
def SB.write_deps (sb : SB) (i : Instruction) (regs : List String) : SB :=
  let sb := regs.foldl (fun sb reg =>
    { sb with
      ww_deps := (aupdate i (aremove reg) sb.ww_deps).map (fun jm =>
        (jm.1, jm.2.map (fun rd =>
          if rd.1 = reg ∧ rd.2 = some i then (rd.1, none) else rd)))
      wr_deps := aupdate i (aremove reg) sb.wr_deps
      rw_deps := sb.rw_deps.map (fun jm =>
        (jm.1, jm.2.map (fun rd =>
          if rd.1 = reg ∧ rd.2 = some i then (rd.1, none) else rd)))
      writes := aset reg (if sb.writesOf reg = some i then none
                          else sb.writesOf reg) sb.writes }) sb
  let sb :=
    if ((alookup i sb.ww_deps).getD []).isEmpty then
      let sb := { sb with
        ww_deps := aremove i sb.ww_deps
        wr_deps := aremove i sb.wr_deps }
      if (alookup i sb.rw_deps).isNone then
        { sb with issued := sremove i sb.issued }
      else sb
    else sb
  { sb with write_buff := aremove i sb.write_buff }

/-- `Preemptive.write` (lines 216-240): charge shared write ports
(`update_used_write_ports`, lines 212-213), then update the dependency
maps. -/
def SB.write (sb : SB) (i : Instruction) (regs : List String) : SB :=
  let sb := { sb with
    used_write_ports := sb.used_write_ports + (sb.write_port_regs regs).length }
  sb.write_deps i regs

/-- `Preemptive.can_issue` (lines 243-261). -/
def SB.can_issue (sb : SB) (i : Instruction) : Bool :=
  if (alookup i sb.rw_deps).isNone && (alookup i sb.ww_deps).isNone &&
      (alookup i sb.wr_deps).isNone then
    true
  else if ((alookup i sb.rw_deps).getD []).any (fun rd =>
      match rd.2 with
      | some d => decide (d ∉ sb.issued)
      | none => false) then
    false
  else if ((alookup i sb.ww_deps).getD []).any (fun rd =>
      match rd.2 with
      | some d => decide (d ∉ sb.issued)
      | none => false) then
    false
  else if ((alookup i sb.wr_deps).getD []).any (fun rd =>
      rd.2.any (fun d => decide (d ∉ sb.issued))) then
    false
  else
    true

/-- `Preemptive.issue` (lines 264-269): only instructions with some
recorded dependency are tracked in `issued`. -/
def SB.issue (sb : SB) (i : Instruction) : SB :=
  if (alookup i sb.rw_deps).isNone && (alookup i sb.ww_deps).isNone &&
      (alookup i sb.wr_deps).isNone then
    sb
  else
    { sb with issued := sinsert i sb.issued }

/-- `Preemptive.clear_used_ports` (lines 271-273), called from `tock`. -/
def SB.clear_used_ports (sb : SB) : SB :=
  { sb with used_read_ports := 0, used_write_ports := 0 }

/-! ### Claim C4 (`Preemptive.can_issue`) -/

/-- The claim's characterisation, written from the spec's words: `i` has no
recorded dependency entries at all (no `rw`, `ww` or `wr` entry), or every
non-`None` producer in `rw[i]` is issued, every non-`None` producer in
`ww[i]` is issued, and every waiter in every `wr[i][r]` set is issued. -/
def canIssueSpec (sb : SB) (i : Instruction) : Prop :=
  (alookup i sb.rw_deps = none ∧ alookup i sb.ww_deps = none ∧
    alookup i sb.wr_deps = none) ∨
  ((∀ rd ∈ (alookup i sb.rw_deps).getD [], ∀ d, rd.2 = some d → d ∈ sb.issued) ∧
   (∀ rd ∈ (alookup i sb.ww_deps).getD [], ∀ d, rd.2 = some d → d ∈ sb.issued) ∧
   (∀ rd ∈ (alookup i sb.wr_deps).getD [], ∀ d ∈ rd.2, d ∈ sb.issued))

/-! ### Vector register slice sequences (`src/tbm/vector_pipe.py`) -/

/-- Python's `str.startswith` (on the underlying character lists, so that
proofs can evaluate it). -/
def strStartsWith (s pre : String) : Bool :=
  pre.data.isPrefixOf s.data

/-- Python's `str.endswith`. -/
def strEndsWith (s suff : String) : Bool :=
  suff.data.isSuffixOf s.data

/-- The value of a decimal digit string (helper for `strToNat?`). -/
def digitsVal (cs : List Char) : Nat :=
  cs.foldl (fun n c => n * 10 + (c.toNat - 48)) 0

/-- Python's `int(s)` on a decimal string, as an `Option` (`None` where
Python raises `ValueError`). -/
def strToNat? (s : String) : Option Nat :=
  if !s.data.isEmpty &&
      s.data.all (fun c => decide (48 ≤ c.toNat) && decide (c.toNat ≤ 57)) then
    some (digitsVal s.data)
  else
    none

/-- Modelled from the spec: `instruction.is_vector_register` (from the
external `instruction.py`, not under `src/`): vector register names are
`v` followed by the register number. -/
def is_vector_register (r : String) : Bool :=
  strStartsWith r "v" && (strToNat? (r.drop 1)).isSome

/-- The token `f"{reg}.{s}"`. -/
def sliceTok (reg : String) (s : Nat) : String :=
  reg ++ "." ++ toString s

/-- The token `f"{reg[0]}{base + g}.{s}"`. -/
def groupTok (c : String) (n : Nat) (s : Nat) : String :=
  c ++ toString n ++ "." ++ toString s

/-- `E(i)`: `VectorPipe.eslices` (lines 70-72),
`math.ceil(instr.max_emul() * self._slices)`. -/
def eslices (slices : Nat) (instr : Instruction) : Nat :=
  (instr.max_emul * (slices : ℚ)).ceil.toNat

/-- The register-token sequence `seq` built by the first half of
`VectorPipe.vec_reg_seq` (lines 360-368), before any interleaving:
fractional `emul` yields `ceil(emul * slices)` slice tokens of `reg`;
integral `emul` yields all `slices` slice tokens of each register of the
group `reg .. reg+emul-1` (`int()` truncation of `emul ≥ 1` is `floor`). -/
def vec_reg_base_seq (slices : Nat) (reg : String) (emul : ℚ) : List String :=
  let base := (strToNat? (reg.drop 1)).getD 0
  if emul < 1 then
    (List.range ((emul * (slices : ℚ)).ceil.toNat)).map (fun s => sliceTok reg s)
  else
    ((List.range emul.floor.toNat).map (fun g =>
      (List.range slices).map (fun s => groupTok (reg.take 1) (base + g) s))).flatten

/-- `VectorPipe.vec_reg_seq` (lines 358-380).  When `emul` equals
`max_emul` (or the fractional sequence is not interleavable because
`slices < 1 / emul`) the plain sequence is returned; otherwise `None`s are
interleaved with `seq` (`utilities.flatten` of `zip`): for an input
register `zip(seq, [None]*len(seq))` — each real token *followed* by a
`None` — and for an output register `zip([None]*len(seq), seq)` — each
real token *preceded* by a `None`.  (The source asserts
`int(max_emul / emul) == 2` on the interleaving path; the theorems below
hypothesise `max_emul = 2 * emul`.) -/
def vec_reg_seq (slices : Nat) (reg : String) (input_reg : Bool)
    (emul max_emul : ℚ) : List (Option String) :=
  let seq := vec_reg_base_seq slices reg emul
  if emul = max_emul ∨ (emul < 1 ∧ (slices : ℚ) < 1 / emul) then
    seq.map some
  else if input_reg then
    (seq.map (fun r => [some r, none])).flatten
  else
    (seq.map (fun r => [none, some r])).flatten

/-- `VectorPipe.input_seq` (lines 382-397): input widening (`.wv`, `.wx`,
`.wf`, `.wi` with `reg` as the second operand) doubles the operand's
`emul`.  The source asserts `instr.lmul is not None` for vector registers;
`getD 0` stands for that assertion. -/
def input_seq (slices : Nat) (instr : Instruction) (reg : String) :
    List (Option String) :=
  if is_vector_register reg then
    let lm := instr.lmul.getD 0
    let emul :=
      if (strEndsWith instr.mnemonic ".wv" || strEndsWith instr.mnemonic ".wx" ||
          strEndsWith instr.mnemonic ".wf" || strEndsWith instr.mnemonic ".wi") &&
          instr.operands.getD 1 "" = reg then
        2 * lm
      else lm
    vec_reg_seq slices reg true emul instr.max_emul
  else
    [some reg]

/-- `VectorPipe.output_seq` (lines 399-415): output widening (`vw*` /
`vfw*` with `reg` as the destination) doubles the operand's `emul`.
Scalar outputs are written at the last slice
(`res = [None] * eslices; res[-1] = reg`). -/
def output_seq (slices : Nat) (instr : Instruction) (reg : String) :
    List (Option String) :=
  if is_vector_register reg then
    let lm := instr.lmul.getD 0
    let emul :=
      if (strStartsWith instr.mnemonic "vw" || strStartsWith instr.mnemonic "vfw") &&
          instr.operands.getD 0 "" = reg then
        2 * lm
      else lm
    vec_reg_seq slices reg false emul instr.max_emul
  else
    match eslices slices instr with
    | 0 => []
    | n + 1 => List.replicate n none ++ [some reg]

/-- `VectorPipe.input_seq_by_type` (lines 417-437): per register file, the
sequence of register sets read by each slice — `seq[i].append(r)` for each
non-`None` `r` at position `i` of `input_seq` (`List.set` leaves positions
`≥ eslices` unchanged where Python would raise `IndexError`; such positions
only ever hold `None` for the configurations modelled here). -/
def input_seq_by_type (slices : Nat) (instr : Instruction) :
    List (String × List (List String)) :=
  instr.inputs_by_type.map (fun tyregs =>
    (tyregs.1, tyregs.2.foldl (fun seq reg =>
      ((input_seq slices instr reg).enum).foldl (fun seq ir =>
        match ir.2 with
        | some r => seq.set ir.1 (seq.getD ir.1 [] ++ [r])
        | none => seq) seq)
      (List.replicate (eslices slices instr) [])))

/-- `VectorPipe.output_seq_by_type` (lines 439-459). -/
def output_seq_by_type (slices : Nat) (instr : Instruction) :
    List (String × List (List String)) :=
  instr.outputs_by_type.map (fun tyregs =>
    (tyregs.1, tyregs.2.foldl (fun seq reg =>
      ((output_seq slices instr reg).enum).foldl (fun seq ir =>
        match ir.2 with
        | some r => seq.set ir.1 (seq.getD ir.1 [] ++ [r])
        | none => seq) seq)
      (List.replicate (eslices slices instr) [])))

/-! ### Claim C3 (interleaving direction of `vec_reg_seq`) -/

/-- "Leading `None`s": each real register token preceded by a `None`. -/
def interleaveLead (xs : List String) : List (Option String) :=
  (xs.map (fun r => [none, some r])).flatten

/-- "Trailing `None`s": each real register token followed by a `None`. -/
def interleaveTrail (xs : List String) : List (Option String) :=
  (xs.map (fun r => [some r, none])).flatten

/-- A widening add `vwadd.vv v4, v1, v2` with `lmul = 1`, `max_emul = 2`:
its *input* operand `v1` has `emul = 1 = max_emul / 2`. -/
def instrC3in : Instruction :=
  { uid := 30, mnemonic := "vwadd.vv", operands := ["v4", "v1", "v2"],
    lmul := some 1, max_emul := 2 }

/-- A narrowing shift `vnsra.wv v4, v8, v2` with `lmul = 1`, `max_emul = 2`:
its *output* operand `v4` has `emul = 1 = max_emul / 2`. -/
def instrC3out : Instruction :=
  { uid := 31, mnemonic := "vnsra.wv", operands := ["v4", "v8", "v2"],
    lmul := some 1, max_emul := 2 }

/-! ### Claim C6 (deadlock watchdog, `CPU.simulate`, `src/tbm/cpu.py`) -/

/-- `deadlock_threshold = 100` (`cpu.py` line 85). -/
def deadlock_threshold : Nat := 100

/-- The watchdog update executed at the end of each completed cycle of
`CPU.simulate` (lines 114-126), as a function of the watchdog state
`(prev_ret_insts, maybe_deadlock_count)` and the current
`counter.retired_instruction_count`.  `Except.error (.sysExit 1)` models
`self.print_state_detailed(file=sys.stderr); logger.error(...);
sys.exit(1)`. -/
def watchdog_update (prev_ret_insts maybe_deadlock_count retired : Nat) :
    Except PyError (Nat × Nat) :=
  if prev_ret_insts = retired then
    if maybe_deadlock_count + 1 > deadlock_threshold then .error (.sysExit 1)
    else .ok (prev_ret_insts, maybe_deadlock_count + 1)
  else
    .ok (retired, 0)

/-- The watchdog state after `n` consecutive completed cycles in which
`retired_instruction_count` stays constant at `r`, starting right after a
cycle that set `prev_ret_insts := r` and `maybe_deadlock_count := 0`. -/
def watchdog_run (r : Nat) : Nat → Except PyError (Nat × Nat)
  | 0 => .ok (r, 0)
  | n + 1 =>
    match watchdog_run r n with
    | .error e => .error e
    | .ok (p, m) => watchdog_update p m r

/-! ### Counter (`src/tbm/counter.py`)

Python `int` counters are only ever incremented by the simulation, so they
are modelled as `Nat`.  The `stalls` / `utilizations` keys are initialised
by the units' `reset` methods; `aupdate` leaves a missing key unchanged
(where Python would raise `KeyError`). -/

structure Utilization where
  size : Option Nat := none
  count : Nat := 0
  occupied : Nat := 0
deriving DecidableEq

structure Counter where
  cycles : Nat := 0
  retired_instruction_count : Nat := 0
  branch_count : Nat := 0
  stalls : List (String × Nat) := []
  utilizations : List (String × Utilization) := []
  scalar_load_store : Nat := 0
  scalar_load_store_stall : Nat := 0
  vector_load_store : Nat := 0
  vector_load_store_stall : Nat := 0
deriving DecidableEq

/-- `cntr.stalls[name] += 1`. -/
def Counter.bumpStall (c : Counter) (name : String) : Counter :=
  { c with stalls := aupdate name (· + 1) c.stalls }

/-- `cntr.utilizations[name].count += n`. -/
def Counter.bumpUtilCount (c : Counter) (name : String) (n : Nat) : Counter :=
  { c with utilizations :=
      aupdate name (fun u => { u with count := u.count + n }) c.utilizations }

/-- `cntr.utilizations[name].occupied += n`. -/
def Counter.bumpUtilOccupied (c : Counter) (name : String) (n : Nat) : Counter :=
  { c with utilizations :=
      aupdate name (fun u => { u with occupied := u.occupied + n }) c.utilizations }

/-- `cntr.retired_instruction_count += n`. -/
def Counter.addRetired (c : Counter) (n : Nat) : Counter :=
  { c with retired_instruction_count := c.retired_instruction_count + n }

/-- `cntr.branch_count += 1`. -/
def Counter.bumpBranch (c : Counter) : Counter :=
  { c with branch_count := c.branch_count + 1 }

/-- `cntr.scalar_load_store += 1`. -/
def Counter.bumpScalarLS (c : Counter) : Counter :=
  { c with scalar_load_store := c.scalar_load_store + 1 }

/-- `cntr.scalar_load_store_stall += 1`. -/
def Counter.bumpScalarLSStall (c : Counter) : Counter :=
  { c with scalar_load_store_stall := c.scalar_load_store_stall + 1 }

/-- `cntr.vector_load_store += 1`. -/
def Counter.bumpVectorLS (c : Counter) : Counter :=
  { c with vector_load_store := c.vector_load_store + 1 }

/-- `cntr.vector_load_store_stall += 1`. -/
def Counter.bumpVectorLSStall (c : Counter) : Counter :=
  { c with vector_load_store_stall := c.vector_load_store_stall + 1 }

/-! ### Memory interface (spec §6)

`src/tbm/memory_system.py` implements the cache hierarchy; the pipelines
only use the four-method request/reply interface, so the hierarchy behind
it is abstracted: requests accumulate, and replies (delivered by the cache
at some later cycle) are drained by `take_*_replys`. -/

/-- Modelled from the spec: the memory interface a cache exposes to a
pipeline — `issue_load/issue_store` enqueue a request for an opaque
requester key `κ`, `take_load_replys/take_store_replys` drain the delivered
replies for that key. -/
structure MemIF (κ : Type) where
  load_requests : List (κ × Nat) := []
  load_replys : List (κ × Nat) := []
  store_requests : List (κ × Nat) := []
  store_replys : List (κ × Nat) := []
deriving DecidableEq

def MemIF.issue_load (m : MemIF κ) (k : κ) (a : Nat) : MemIF κ :=
  { m with load_requests := m.load_requests ++ [(k, a)] }

def MemIF.issue_store (m : MemIF κ) (k : κ) (a : Nat) : MemIF κ :=
  { m with store_requests := m.store_requests ++ [(k, a)] }

def MemIF.take_load_replys [DecidableEq κ] (m : MemIF κ) (k : κ) :
    List Nat × MemIF κ :=
  ((m.load_replys.filter (fun e => e.1 = k)).map (·.2),
   { m with load_replys := m.load_replys.filter (fun e => e.1 ≠ k) })

def MemIF.take_store_replys [DecidableEq κ] (m : MemIF κ) (k : κ) :
    List Nat × MemIF κ :=
  ((m.store_replys.filter (fun e => e.1 = k)).map (·.2),
   { m with store_replys := m.store_replys.filter (fun e => e.1 ≠ k) })

/-! ### Vector scoreboard (`src/scoreboard.py`, class `VecPreemptive`)

`VecPreemptive` inherits all dependency bookkeeping from `Preemptive`
(field `base` below) and overrides only the port logic: register tokens
are `name.slice`, port budgets are per slice, and the used-port counters
are arrays of length `slices`. -/

/-- `rs.rpartition(".")` followed by `int(s)` on a `name.slice` token:
the register name before the last dot and the slice index after it. -/
def splitSliceTok (t : String) : String × Nat :=
  let rev := t.data.reverse
  let digits := rev.takeWhile (fun c => c ≠ '.')
  (⟨(rev.drop (digits.length + 1)).reverse⟩, digitsVal digits.reverse)

structure VecSB where
  base : SB
  slices : Nat
  used_read_ports : List Nat
  used_write_ports : List Nat
deriving DecidableEq

/-- `VecPreemptive.__init__` (lines 317-323). -/
def VecSB.init (sb : SB) (slices : Nat) : VecSB :=
  { base := sb
    slices := slices
    used_read_ports := List.replicate slices 0
    used_write_ports := List.replicate slices 0 }

/-- `VecPreemptive.read_port_regs` (lines 325-341): the per-slice map of
regs that need a shared read port (`res.setdefault(int(s),
deque()).append(r)`). -/
def VecSB.read_port_regs (v : VecSB) (i : Instruction) (regs : List String) :
    List (Nat × List String) :=
  regs.foldl (fun res rs =>
    let r := (splitSliceTok rs).1
    let s := (splitSliceTok rs).2
    if decide (r ∉ v.base.dedicated_read_ports) && (v.base.rwDep i rs).isNone then
      aupsert s [] (fun l => l ++ [r]) res
    else res) []

/-- `VecPreemptive.check_read_ports` (lines 343-350). -/
def VecSB.check_read_ports (v : VecSB) (i : Instruction) (regs : List String) :
    Bool :=
  match v.base.read_ports with
  | none => true
  | some rp => (v.read_port_regs i regs).all (fun srs =>
      decide (v.used_read_ports.getD srs.1 0 + srs.2.length ≤ rp))

/-- `VecPreemptive.write_port_regs` (lines 352-363). -/
def VecSB.write_port_regs (v : VecSB) (regs : List String) :
    List (Nat × List String) :=
  regs.foldl (fun res rs =>
    let r := (splitSliceTok rs).1
    let s := (splitSliceTok rs).2
    if decide (r ∉ v.base.dedicated_write_ports) then
      aupsert s [] (fun l => l ++ [r]) res
    else res) []

/-- `VecPreemptive.check_write_ports` (lines 365-372). -/
def VecSB.check_write_ports (v : VecSB) (regs : List String) : Bool :=
  match v.base.write_ports with
  | none => true
  | some wp => (v.write_port_regs regs).all (fun srs =>
      decide (v.used_write_ports.getD srs.1 0 + srs.2.length ≤ wp))

/-- `VecPreemptive.update_used_read_ports` (lines 374-376). -/
def VecSB.update_used_read_ports (v : VecSB) (i : Instruction)
    (regs : List String) : VecSB :=
  (v.read_port_regs i regs).foldl (fun v srs =>
    { v with used_read_ports :=
        v.used_read_ports.set srs.1 (v.used_read_ports.getD srs.1 0 + srs.2.length) }) v

/-- `VecPreemptive.update_used_write_ports` (lines 378-380). -/
def VecSB.update_used_write_ports (v : VecSB) (regs : List String) : VecSB :=
  (v.write_port_regs regs).foldl (fun v srs =>
    { v with used_write_ports :=
        v.used_write_ports.set srs.1 (v.used_write_ports.getD srs.1 0 + srs.2.length) }) v

/-- Inherited `can_read` with the overridden port check. -/
def VecSB.can_read (v : VecSB) (i : Instruction) (regs : List String) : Bool :=
  v.check_read_ports i regs && v.base.read_deps_ok i regs

/-- Inherited `can_write` with the overridden port check. -/
def VecSB.can_write (v : VecSB) (i : Instruction) (regs : List String) : Bool :=
  v.check_write_ports regs && v.base.write_deps_ok i regs

/-- Inherited `read` with the overridden port accounting. -/
def VecSB.read (v : VecSB) (i : Instruction) (regs : List String) : VecSB :=
  let v := v.update_used_read_ports i regs
  { v with base := v.base.read_deps i regs }

/-- Inherited `write` with the overridden port accounting. -/
def VecSB.write (v : VecSB) (i : Instruction) (regs : List String) : VecSB :=
  let v := v.update_used_write_ports regs
  { v with base := v.base.write_deps i regs }

/-- `VecPreemptive.clear_used_ports` (lines 382-385). -/
def VecSB.clear_used_ports (v : VecSB) : VecSB :=
  { v with used_read_ports := List.replicate v.slices 0
           used_write_ports := List.replicate v.slices 0 }

/-! ### A register file's scoreboard: scalar or vector

`rf_scoreboards` maps register-file ids to either a `Preemptive` or a
`VecPreemptive` scoreboard; the pipelines call the common interface. -/

inductive AnySB where
  | scalar (sb : SB)
  | vec (v : VecSB)
deriving DecidableEq

def AnySB.insert_accesses (a : AnySB) (i : Instruction)
    (reg_reads reg_writes : List String) : AnySB :=
  match a with
  | .scalar sb => .scalar (sb.insert_accesses i reg_reads reg_writes)
  | .vec v => .vec { v with base := v.base.insert_accesses i reg_reads reg_writes }

def AnySB.can_read (a : AnySB) (i : Instruction) (regs : List String) : Bool :=
  match a with
  | .scalar sb => sb.can_read i regs
  | .vec v => v.can_read i regs

def AnySB.read (a : AnySB) (i : Instruction) (regs : List String) : AnySB :=
  match a with
  | .scalar sb => .scalar (sb.read i regs)
  | .vec v => .vec (v.read i regs)

def AnySB.can_write (a : AnySB) (i : Instruction) (regs : List String) : Bool :=
  match a with
  | .scalar sb => sb.can_write i regs
  | .vec v => v.can_write i regs

def AnySB.write (a : AnySB) (i : Instruction) (regs : List String) : AnySB :=
  match a with
  | .scalar sb => .scalar (sb.write i regs)
  | .vec v => .vec (v.write i regs)

def AnySB.buff_write (a : AnySB) (i : Instruction) (regs : List String) : AnySB :=
  match a with
  | .scalar sb => .scalar (sb.buff_write i regs)
  | .vec v => .vec { v with base := v.base.buff_write i regs }

def AnySB.can_issue (a : AnySB) (i : Instruction) : Bool :=
  match a with
  | .scalar sb => sb.can_issue i
  | .vec v => v.base.can_issue i

def AnySB.issue (a : AnySB) (i : Instruction) : AnySB :=
  match a with
  | .scalar sb => .scalar (sb.issue i)
  | .vec v => .vec { v with base := v.base.issue i }

/-- `Preemptive.tock` / inherited `VecPreemptive.tock` (lines 286-288):
reset the per-cycle port counters. -/
def AnySB.tock (a : AnySB) : AnySB :=
  match a with
  | .scalar sb => .scalar sb.clear_used_ports
  | .vec v => .vec v.clear_used_ports

/-- The register-file scoreboard map shared by all pipelines
(`self._rf_scoreboards`). -/
abbrev SBs := List (String × AnySB)

/-- `self._rf_scoreboards[rf]` (a `KeyError` in Python when the config
lacks the register file; validated configs define a scoreboard for every
register-file id an instruction can use). -/
def sbGet (sbs : SBs) (rf : String) : AnySB :=
  (alookup rf sbs).getD (.scalar {})

/-- Apply `f` to `self._rf_scoreboards[rf]`. -/
def sbApply (sbs : SBs) (rf : String) (f : AnySB → AnySB) : SBs :=
  aupdate rf f sbs

/-! ### ScalarPipe (`src/tbm/scalar_pipe.py`)

The pipe owns its EIQ, stage array (length = configured depth), writeback
queue, memory interface and load/store stall maps; the register-file
scoreboards (`self._rf_scoreboards`) are shared between the pipes, so
every mutating operation threads the `SBs` map through. -/

structure ScalarPipe where
  name : String
  kind : String := ""
  issue_queue_id : String := ""
  eiq : BQ Instruction
  can_skip_eiq : Bool := false
  pipelined : Bool := true
  stage : List (Option Instruction)
  writebackq : BQ Instruction
  mem : MemIF Instruction := {}
  load_stage : Option Nat := none
  fixed_load_latency : Nat := 0
  store_stage : Option Nat := none
  fixed_store_latency : Nat := 0
  stalling_loads : List ((Instruction × Nat) × Option Bool) := []
  stalling_stores : List ((Instruction × Nat) × Option Bool) := []
  retired_instrs : List Instruction := []
deriving DecidableEq

/-- `ScalarPipe.reg_read_stall` (lines 60-62): some register file cannot
serve the instruction's reads. -/
def ScalarPipe.reg_read_stall (sbs : SBs) (i : Instruction) : Bool :=
  i.inputs_by_type.any (fun rfregs => !(sbGet sbs rfregs.1).can_read i rfregs.2)

/-- `ScalarPipe.reg_write_stall` (lines 64-66). -/
def ScalarPipe.reg_write_stall (sbs : SBs) (i : Instruction) : Bool :=
  i.outputs_by_type.any (fun rfregs => !(sbGet sbs rfregs.1).can_write i rfregs.2)

/-- `ScalarPipe.sb_reg_read` (lines 68-70). -/
def ScalarPipe.sb_reg_read (sbs : SBs) (i : Instruction) : SBs :=
  i.inputs_by_type.foldl (fun sbs rfregs =>
    sbApply sbs rfregs.1 (fun a => a.read i rfregs.2)) sbs

/-- `ScalarPipe.sb_buff_reg_write` (lines 72-74). -/
def ScalarPipe.sb_buff_reg_write (sbs : SBs) (i : Instruction) : SBs :=
  i.outputs_by_type.foldl (fun sbs rfregs =>
    sbApply sbs rfregs.1 (fun a => a.buff_write i rfregs.2)) sbs

/-- `ScalarPipe.sb_reg_write` (lines 76-78). -/
def ScalarPipe.sb_reg_write (sbs : SBs) (i : Instruction) : SBs :=
  i.outputs_by_type.foldl (fun sbs rfregs =>
    sbApply sbs rfregs.1 (fun a => a.write i rfregs.2)) sbs

/-- `ScalarPipe.do_reg_writeback` (lines 80-85): retire the WBQ head if its
writes can be committed on every register file. -/
def ScalarPipe.do_reg_writeback (p : ScalarPipe) (sbs : SBs) :
    ScalarPipe × SBs :=
  match p.writebackq.committed with
  | [] => (p, sbs)
  | instr :: rest =>
    if !ScalarPipe.reg_write_stall sbs instr then
      ({ p with writebackq := { p.writebackq with committed := rest }
                retired_instrs := p.retired_instrs ++ [instr] },
       ScalarPipe.sb_reg_write sbs instr)
    else (p, sbs)

/-- `ScalarPipe.stall` (lines 87-100): (a) the last stage needs register
writes and the WBQ's buffered side is full, or (b) some issued load/store
is still awaiting its reply (which bumps the scalar load/store stall
counter). -/
def ScalarPipe.stall (p : ScalarPipe) (c : Counter) : Bool × Counter :=
  if (match p.stage.getLast? with
      | some (some i) => !i.outputs_by_type.isEmpty
      | _ => false) && p.writebackq.is_buffer_full then
    (true, c)
  else if p.stalling_loads.any (fun e => e.2 = some true) ||
      p.stalling_stores.any (fun e => e.2 = some true) then
    (true, c.bumpScalarLSStall)
  else
    (false, c)

/-- `ScalarPipe.do_load` (lines 102-121): issue the load the first time the
instruction is seen at `load_stage` (the source asserts at most one load
per scalar instruction); at `load_stage + fixed_load_latency`, mark
still-unanswered loads as awaiting (`True`) and drain delivered replies
(`False`).  A missing stall-map entry is treated as `None` where Python
would raise `KeyError` (the entry is always present along modelled
executions). -/
def ScalarPipe.do_load (p : ScalarPipe) : ScalarPipe :=
  match p.load_stage with
  | none => p
  | some ls =>
    let p :=
      match p.stage.getD ls none with
      | some inst =>
        inst.loads.foldl (fun (p : ScalarPipe) load =>
          if (alookup (inst, load) p.stalling_loads).isNone then
            { p with mem := p.mem.issue_load inst load
                     stalling_loads := aset (inst, load) none p.stalling_loads }
          else p) p
      | none => p
    match p.stage.getD (ls + p.fixed_load_latency) none with
    | some inst =>
      let p := inst.loads.foldl (fun (p : ScalarPipe) load =>
        if (alookup (inst, load) p.stalling_loads).getD none = none then
          { p with stalling_loads := aset (inst, load) (some true) p.stalling_loads }
        else p) p
      let rm := p.mem.take_load_replys inst
      let p := { p with mem := rm.2 }
      rm.1.foldl (fun (p : ScalarPipe) load =>
        { p with stalling_loads := aset (inst, load) (some false) p.stalling_loads }) p
    | none => p

/-- `ScalarPipe.do_store` (lines 123-142), symmetric to `do_load`. -/
def ScalarPipe.do_store (p : ScalarPipe) : ScalarPipe :=
  match p.store_stage with
  | none => p
  | some ss =>
    let p :=
      match p.stage.getD ss none with
      | some inst =>
        inst.stores.foldl (fun (p : ScalarPipe) store =>
          if (alookup (inst, store) p.stalling_stores).isNone then
            { p with mem := p.mem.issue_store inst store
                     stalling_stores := aset (inst, store) none p.stalling_stores }
          else p) p
      | none => p
    match p.stage.getD (ss + p.fixed_store_latency) none with
    | some inst =>
      let p := inst.stores.foldl (fun (p : ScalarPipe) store =>
        if (alookup (inst, store) p.stalling_stores).getD none = none then
          { p with stalling_stores := aset (inst, store) (some true) p.stalling_stores }
        else p) p
      let rm := p.mem.take_store_replys inst
      let p := { p with mem := rm.2 }
      rm.1.foldl (fun (p : ScalarPipe) store =>
        { p with stalling_stores := aset (inst, store) (some false) p.stalling_stores }) p
    | none => p

/-- `ScalarPipe.is_ready` (lines 256-261). -/
def ScalarPipe.is_ready (p : ScalarPipe) : Bool :=
  if p.pipelined then (p.stage.getD 0 none).isNone
  else p.stage.all (·.isNone)

/-- `ScalarPipe.try_issue` (lines 263-281): fail (leaving all state
unchanged) unless every scoreboard reports `can_issue` and no register
file stalls the reads; on success put the instruction into stage 0 (the
source asserts it was empty), bump the pipe utilization, `issue` on every
scoreboard and record the reads. -/
def ScalarPipe.try_issue (p : ScalarPipe) (sbs : SBs) (c : Counter)
    (i : Instruction) : Bool × ScalarPipe × SBs × Counter :=
  if !(sbs.all (fun e => e.2.can_issue i)) then (false, p, sbs, c)
  else if ScalarPipe.reg_read_stall sbs i then (false, p, sbs, c)
  else
    let p := { p with stage := p.stage.set 0 (some i) }
    let c := c.bumpUtilCount (p.name ++ ".pipe") 1
    let sbs := sbs.map (fun e => (e.1, e.2.issue i))
    let sbs := ScalarPipe.sb_reg_read sbs i
    (true, p, sbs, c)

/-- The issue loop at the end of `ScalarPipe.tick` (lines 201-208): up to
`len(self._eiq)` times, pop the committed EIQ head and `try_issue` it —
stop on the first success, otherwise re-append the entry at the tail.  The
fuel argument is the initial `len(self._eiq)`. -/
def ScalarPipe.issue_from_eiq : ScalarPipe → SBs → Counter → Nat →
    ScalarPipe × SBs × Counter
  | p, sbs, c, 0 => (p, sbs, c)
  | p, sbs, c, n + 1 =>
    match p.eiq.committed with
    | [] => (p, sbs, c)
    | instr :: rest =>
      let p := { p with eiq := { p.eiq with committed := rest } }
      match ScalarPipe.try_issue p sbs c instr with
      | (true, p', sbs', c') => (p', sbs', c')
      | (false, p', sbs', c') =>
        ScalarPipe.issue_from_eiq
          { p' with eiq := { p'.eiq with committed := p'.eiq.committed ++ [instr] } }
          sbs' c' n

/-- `ScalarPipe.tick` (lines 156-208): writeback attempt; if not stalled,
clean up the completed memory ops of the instruction leaving the pipe and
shift the stages right (the leaving instruction goes to the WBQ's buffered
side — with `buff_write` on the scoreboards — when it has outputs, else
retires directly), prepending `None` at stage 0; then `do_load`/`do_store`;
finally, if the pipe `is_ready`, try to issue from the EIQ. -/
def ScalarPipe.tick (p : ScalarPipe) (sbs : SBs) (c : Counter) :
    ScalarPipe × SBs × Counter :=
  let p := { p with retired_instrs := [] }
  let psbs := ScalarPipe.do_reg_writeback p sbs
  let p := psbs.1
  let sbs := psbs.2
  let stc := ScalarPipe.stall p c
  let c := stc.2
  let r :=
    if !stc.1 then
      let p :=
        match p.load_stage with
        | some ls =>
          (match p.stage.getD (ls + p.fixed_load_latency) none with
           | some inst => inst.loads.foldl (fun (p : ScalarPipe) load =>
               { p with stalling_loads := aremove (inst, load) p.stalling_loads }) p
           | none => p)
        | none => p
      let p :=
        match p.store_stage with
        | some ss =>
          (match p.stage.getD (ss + p.fixed_store_latency) none with
           | some inst => inst.stores.foldl (fun (p : ScalarPipe) store =>
               { p with stalling_stores := aremove (inst, store) p.stalling_stores }) p
           | none => p)
        | none => p
      let last := (p.stage.getLast?).getD none
      let p := { p with stage := none :: p.stage.dropLast }
      match last with
      | some instr =>
        if !instr.outputs_by_type.isEmpty then
          ({ p with writebackq := p.writebackq.buffer instr },
           ScalarPipe.sb_buff_reg_write sbs instr,
           c.bumpUtilCount (p.name ++ ".wbq") 1)
        else
          ({ p with retired_instrs := p.retired_instrs ++ [instr] }, sbs, c)
      | none => (p, sbs, c)
    else (p, sbs, c)
  let p := r.1
  let sbs := r.2.1
  let c := r.2.2
  let p := ScalarPipe.do_load p
  let p := ScalarPipe.do_store p
  if p.is_ready then
    ScalarPipe.issue_from_eiq p sbs c p.eiq.committed.length
  else (p, sbs, c)

/-- `ScalarPipe.tock` (lines 211-223): clear the per-cycle retired list,
sample occupancy, flush the EIQ and the WBQ. -/
def ScalarPipe.tock (p : ScalarPipe) (c : Counter) : ScalarPipe × Counter :=
  let p := { p with retired_instrs := [] }
  let c := c.bumpUtilOccupied (p.name ++ ".pipe")
    (p.stage.filter (·.isSome)).length
  let p := { p with eiq := p.eiq.flush }
  let c := c.bumpUtilOccupied (p.name ++ ".eiq") p.eiq.committed.length
  let p := { p with writebackq := p.writebackq.flush }
  let c := c.bumpUtilOccupied (p.name ++ ".wbq") p.writebackq.committed.length
  (p, c)

/-- `ScalarPipe.pending` (lines 226-230). -/
def ScalarPipe.pending (p : ScalarPipe) : Nat :=
  p.eiq.chain.length + (p.stage.filter (·.isSome)).length +
    p.writebackq.chain.length

/-- `ScalarPipe.try_dispatch` (lines 233-254): refuse (changing nothing)
iff the EIQ's buffered side is full; otherwise insert the instruction's
accesses into every register file's scoreboard, try to skip the EIQ when
configured (and ready, and `try_issue` succeeds) else buffer in the EIQ,
count load/store dispatches, and accept. -/
def ScalarPipe.try_dispatch (p : ScalarPipe) (sbs : SBs) (c : Counter)
    (i : Instruction) : Bool × ScalarPipe × SBs × Counter :=
  if p.eiq.is_buffer_full then (false, p, sbs, c)
  else
    let rfs := (i.inputs_by_type.map (·.1) ++ i.outputs_by_type.map (·.1)).dedup
    let sbs := rfs.foldl (fun sbs rf =>
      sbApply sbs rf (fun a => a.insert_accesses i
        ((alookup rf i.inputs_by_type).getD [])
        ((alookup rf i.outputs_by_type).getD []))) sbs
    let r :=
      if p.can_skip_eiq && p.is_ready then
        ScalarPipe.try_issue p sbs c i
      else (false, p, sbs, c)
    let p := r.2.1
    let sbs := r.2.2.1
    let c := r.2.2.2
    let pc :=
      if !r.1 then
        ({ p with eiq := p.eiq.buffer i }, c.bumpUtilCount (p.name ++ ".eiq") 1)
      else (p, c)
    let p := pc.1
    let c := pc.2
    let c := if !i.loads.isEmpty || !i.stores.isEmpty then c.bumpScalarLS else c
    (true, p, sbs, c)

/-- The success condition of `ScalarPipe.try_issue`, as a pure predicate of
the (shared) scoreboard state: every scoreboard reports `can_issue` and no
register file stalls the reads.  `try_issue` mutates nothing when this is
false. -/
def tryIssueOk (sbs : SBs) (i : Instruction) : Bool :=
  sbs.all (fun e => e.2.can_issue i) && !ScalarPipe.reg_read_stall sbs i

/-- Producer instruction for the C10 scenario. -/
def i0C10 : Instruction := { uid := 100 }

/-- An instruction blocked on `i0C10`'s pending write to `x1` (the producer
is not in `issued`, so `can_issue` fails). -/
def i1C10 : Instruction := { uid := 101 }

/-- A dependency-free instruction (issues immediately). -/
def i2C10 : Instruction := { uid := 102 }

/-- A scoreboard on which `i1C10` cannot issue (it has a recorded `rw`
dependency on the in-flight, un-issued `i0C10`) but `i2C10` can. -/
def sbsC10 : SBs :=
  [("scalar", .scalar { rw_deps := [(i1C10, [("x1", some i0C10)])] })]

/-- A ready pipelined scalar pipe whose committed EIQ holds
`[i1C10, i2C10]`. -/
def pC10 : ScalarPipe :=
  { name := "alu0", eiq := ⟨[i1C10, i2C10], [], none⟩, stage := [none],
    writebackq := ⟨[], [], none⟩ }

/-- A scalar pipe whose capacity-1 EIQ is full (for C5's witness). -/
def pC5 : ScalarPipe :=
  { name := "alu0", eiq := ⟨[i1C10], [], some 1⟩, stage := [none],
    writebackq := ⟨[], [], none⟩ }

/-! ### FetchUnit (`src/tbm/fetch_unit.py`) -/

/-- `NextFetch` (lines 11-40): the next batch address or a stall flag.  The
`addr` property setter also clears `_stall`; the `stall` setter also clears
`_addr`. -/
structure NextFetch where
  addr : Option Nat := none
  stall : Bool := false
deriving DecidableEq

/-- The `addr` setter (lines 28-31).  The value written on line 163 is
`self._trace.next_addr()`, which is `None` at trace EOF, hence the
`Option` argument. -/
def NextFetch.setAddr (a : Option Nat) : NextFetch :=
  { addr := a, stall := false }

/-- The `stall` setter (lines 37-40). -/
def NextFetch.setStall (v : Bool) : NextFetch :=
  { addr := none, stall := v }

/-- `FetchUnit` state.  The trace is modelled from the spec (§6: a bounded
pull stream of `Instruction` records with `eof()`, `next_addr()` and
`dequeue()`; `functional_trace.py` is not under `src/`) as the list of
instructions not yet consumed. -/
structure Fetch where
  branch_prediction : BP
  fetch_rate : Nat
  queue : BQ (Option Instruction)
  next_fetch : NextFetch := {}
  next_fetch_stall : Option Bool := none
  trace : List Instruction
  phase : Option Phase := none
deriving DecidableEq

/-- `FunctionalTrace.eof()` (modelled from the spec). -/
def Fetch.eof (fu : Fetch) : Bool := fu.trace.isEmpty

/-- `FunctionalTrace.next_addr()` (modelled from the spec): the byte
address of the next traced instruction, `None` at EOF. -/
def Fetch.traceNextAddr (fu : Fetch) : Option Nat :=
  fu.trace.head?.map (·.addr)

/-- `FetchUnit.pending` (lines 73-74). -/
def Fetch.pending (fu : Fetch) : Nat := fu.queue.committed.length

/-- The attribute names that exist on a `BufferedQueue` object: the
instance fields assigned in `BufferedQueue.__init__` (`_size`, `_buff` —
`buffered_queue.py` lines 45-47), the methods and properties of the class
body, and the inherited `collections.deque` methods the repository uses.
There is no `buff` attribute: the pending deque is the private `_buff`. -/
def bufferedQueueAttrs : List String :=
  ["_size", "_buff", "is_buffer_full", "buffer", "flush", "chain",
   "pp_three_valued", "size", "full", "dequeue", "peek", "append",
   "appendleft", "popleft", "extend", "clear", "__len__", "__iter__"]

/-- Python attribute resolution on a `BufferedQueue` object: `hasattr`. -/
def bqHasattr (a : String) : Bool := bufferedQueueAttrs.contains a

/-- `FetchUnit.branch_resolved` (lines 181-198).  After asserting the
`"none"` branch-prediction policy, the first statement evaluates
`self._queue.buff` (line 189) — but `BufferedQueue` has no attribute
`buff` (the field is `_buff`), so Python raises `AttributeError` before
anything is mutated.  The `.ok` branch spells out what the source intends
(and would do if the attribute resolved): drop the leading `None` holes of
the pending and committed sides, then clear the fetch stall — immediately
when in TOCK, deferred to the next tock when in TICK. -/
def Fetch.branch_resolved (fu : Fetch) : Except PyError Fetch :=
  if fu.branch_prediction ≠ BP.nopred then .error .assertionError
  else if !bqHasattr "buff" then
    .error (.attributeError "buff")
  else
    let fu := { fu with queue :=
      { fu.queue with buff := fu.queue.buff.dropWhile (·.isNone)
                      committed := fu.queue.committed.dropWhile (·.isNone) } }
    match fu.phase with
    | some .TICK => .ok { fu with next_fetch_stall := some false }
    | some .TOCK => .ok { fu with next_fetch := NextFetch.setStall false }
    | none => .error .assertionError

/-- `range(fetch_addr, next_addr, inst_size)` with `inst_size = 4`. -/
def addrRange (fetch_addr next_addr : Nat) : List Nat :=
  (List.range ((next_addr - fetch_addr + 3) / 4)).map (fun k => fetch_addr + 4 * k)

/-- The per-slot loop of `FetchUnit.tick` (lines 141-163): a slot whose
address is not the trace head buffers a `None` hole; otherwise the traced
instruction is dequeued and buffered (a `None` dequeue at EOF breaks the
loop), and a non-branch whose successor is not `addr + 4` redirects
`next_fetch.addr` to the trace's new head (exception redirection). -/
def Fetch.fetchLoop (fu : Fetch) : List Nat → Fetch
  | [] => fu
  | fa :: rest =>
    if some fa ≠ fu.traceNextAddr then
      Fetch.fetchLoop { fu with queue := fu.queue.buffer none } rest
    else
      match fu.trace with
      | [] => fu
      | inst :: tr =>
        let fu := { fu with trace := tr, queue := fu.queue.buffer (some inst) }
        let fu :=
          if !inst.is_branch && some (inst.addr + 4) ≠ fu.traceNextAddr then
            { fu with next_fetch := NextFetch.setAddr fu.traceNextAddr }
          else fu
        Fetch.fetchLoop fu rest

/-- Lines 126-166 of `FetchUnit.tick`: compute the aligned batch
boundaries (`inst_size = 4`; configs have `fetch_rate ≥ 1`, Python would
raise `ZeroDivisionError` on `% 0`), set `next_fetch.addr`, buffer the
batch, and count the full `fetch_rate` as fetched. -/
def Fetch.fetchBatch (fu : Fetch) (c : Counter) : Fetch × Counter :=
  let fetch_addr := fu.traceNextAddr.getD 0
  let next_addr := fetch_addr + 4 * fu.fetch_rate -
    (fetch_addr + 4 * fu.fetch_rate) % (4 * fu.fetch_rate)
  let fu := { fu with next_fetch := NextFetch.setAddr (some next_addr) }
  let fu := Fetch.fetchLoop fu (addrRange fetch_addr next_addr)
  (fu, c.bumpUtilCount "FE" fu.fetch_rate)

/-- `FetchUnit.tick` (lines 84-166): nothing at trace EOF; a fetch stall
when the batch does not fit the queue; under no-prediction a mismatch
between `next_fetch.addr` and the trace head raises the stall flag (under
perfect prediction the source asserts and proceeds); an already-raised
stall counts a stall cycle; otherwise fetch a batch. -/
def Fetch.tick (fu : Fetch) (c : Counter) : Fetch × Counter :=
  let fu := { fu with phase := some Phase.TICK }
  if fu.eof then (fu, c)
  else if (match fu.queue.size with
           | some s => decide (s < fu.queue.committed.length + fu.fetch_rate)
           | none => false) then
    (fu, c.bumpStall "FE")
  else
    match fu.next_fetch.addr with
    | some a =>
      if fu.traceNextAddr ≠ some a then
        if fu.branch_prediction = BP.nopred then
          ({ fu with next_fetch := NextFetch.setStall true }, c)
        else
          Fetch.fetchBatch fu c
      else Fetch.fetchBatch fu c
    | none =>
      if fu.next_fetch.stall then (fu, c.bumpStall "FE")
      else Fetch.fetchBatch fu c

/-- `FetchUnit.tock` (lines 169-178): flush the fetch queue, apply a
deferred stall flag, sample occupancy. -/
def Fetch.tock (fu : Fetch) (c : Counter) : Fetch × Counter :=
  let fu := { fu with phase := some Phase.TOCK, queue := fu.queue.flush }
  let fu :=
    match fu.next_fetch_stall with
    | some v => { fu with next_fetch := NextFetch.setStall v
                          next_fetch_stall := none }
    | none => fu
  (fu, c.bumpUtilOccupied "FE" fu.queue.committed.length)

/-- A concrete fetch unit under the no-prediction policy, with `None`
holes at the heads of both sides of the fetch queue (the exact state
`branch_resolved` is meant to clean up). -/
def fuC2 : Fetch :=
  { branch_prediction := .nopred
    fetch_rate := 1
    queue := ⟨[none, some { uid := 7 }], [none], some 8⟩
    next_fetch := ⟨none, true⟩
    trace := []
    phase := some .TOCK }

/-! ### VectorPipe (`src/tbm/vector_pipe.py`)

Stage entries are `(instruction, slice_index)`; `inflight_instr` /
`inflight_next_slice` stream the remaining slices of the instruction last
issued into stage 0. -/

structure VectorPipe where
  name : String
  kind : String := ""
  issue_queue_id : String := ""
  eiq : BQ Instruction
  can_skip_eiq : Bool := false
  slices : Nat
  pipelined : Bool := true
  stage : List (Option (Instruction × Nat))
  inflight_instr : Option Instruction := none
  inflight_next_slice : Nat := 0
  writebackq : BQ (Instruction × Nat)
  mem : MemIF (Instruction × Nat) := {}
  load_stage : Option Nat := none
  fixed_load_latency : Nat := 0
  store_stage : Option Nat := none
  fixed_store_latency : Nat := 0
  stalling_loads : List ((Instruction × Nat × Nat) × Option Bool) := []
  stalling_stores : List ((Instruction × Nat × Nat) × Option Bool) := []
  retired_instrs : List Instruction := []
deriving DecidableEq

/-- `VectorPipe.slice` (lines 74-92): the memory access location and
element count of slice `index` out of `eslices` (an out-of-range
`accesses[start]` — impossible for the asserted single-access
instructions — is modelled as address 0). -/
def vecSlice (accesses : List Nat) (index lanes : Nat) : Nat × Nat :=
  let alen := accesses.length
  let slen := alen / lanes
  let start := index * slen
  (accesses.getD start 0, min slen (alen - start))

/-- `VectorPipe.reg_read_stall` (lines 94-97). -/
def VectorPipe.reg_read_stall (p : VectorPipe) (sbs : SBs) (i : Instruction)
    (s : Nat) : Bool :=
  (input_seq_by_type p.slices i).any (fun tyseq =>
    decide (s < tyseq.2.length) &&
      !(sbGet sbs tyseq.1).can_read i (tyseq.2.getD s []))

/-- `VectorPipe.reg_write_stall` (lines 99-102). -/
def VectorPipe.reg_write_stall (p : VectorPipe) (sbs : SBs) (i : Instruction)
    (s : Nat) : Bool :=
  (output_seq_by_type p.slices i).any (fun tyseq =>
    decide (s < tyseq.2.length) &&
      !(sbGet sbs tyseq.1).can_write i (tyseq.2.getD s []))

/-- `VectorPipe.sb_reg_read` (lines 104-107): only slices with a non-empty
read set. -/
def VectorPipe.sb_reg_read (p : VectorPipe) (sbs : SBs) (i : Instruction)
    (s : Nat) : SBs :=
  (input_seq_by_type p.slices i).foldl (fun sbs tyseq =>
    if decide (s < tyseq.2.length) && !(tyseq.2.getD s []).isEmpty then
      sbApply sbs tyseq.1 (fun a => a.read i (tyseq.2.getD s []))
    else sbs) sbs

/-- `VectorPipe.sb_buff_reg_write` (lines 109-112). -/
def VectorPipe.sb_buff_reg_write (p : VectorPipe) (sbs : SBs)
    (i : Instruction) (s : Nat) : SBs :=
  (output_seq_by_type p.slices i).foldl (fun sbs tyseq =>
    if decide (s < tyseq.2.length) then
      sbApply sbs tyseq.1 (fun a => a.buff_write i (tyseq.2.getD s []))
    else sbs) sbs

/-- `VectorPipe.sb_reg_write` (lines 114-117). -/
def VectorPipe.sb_reg_write (p : VectorPipe) (sbs : SBs) (i : Instruction)
    (s : Nat) : SBs :=
  (output_seq_by_type p.slices i).foldl (fun sbs tyseq =>
    if decide (s < tyseq.2.length) then
      sbApply sbs tyseq.1 (fun a => a.write i (tyseq.2.getD s []))
    else sbs) sbs

/-- `VectorPipe.do_reg_writeback` (lines 119-126): commit the WBQ head's
slice writes when possible; retirement only on the last slice. -/
def VectorPipe.do_reg_writeback (p : VectorPipe) (sbs : SBs) :
    VectorPipe × SBs :=
  match p.writebackq.committed with
  | [] => (p, sbs)
  | (instr, s) :: rest =>
    if !(p.reg_write_stall sbs instr s) then
      let sbs := p.sb_reg_write sbs instr s
      let p := { p with writebackq := { p.writebackq with committed := rest } }
      if s + 1 = eslices p.slices instr then
        ({ p with retired_instrs := p.retired_instrs ++ [instr] }, sbs)
      else (p, sbs)
    else (p, sbs)

/-- `VectorPipe.stall` (lines 128-144). -/
def VectorPipe.stall (p : VectorPipe) (c : Counter) : Bool × Counter :=
  if (match p.stage.getLast? with
      | some (some is) =>
        (output_seq_by_type p.slices is.1).any (fun tyseq =>
          decide (is.2 < tyseq.2.length) && !(tyseq.2.getD is.2 []).isEmpty)
      | _ => false) && p.writebackq.is_buffer_full then
    (true, c)
  else if p.stalling_loads.any (fun e => e.2 = some true) ||
      p.stalling_stores.any (fun e => e.2 = some true) then
    (true, c.bumpVectorLSStall)
  else (false, c)

/-- `VectorPipe.do_load` (lines 146-167). -/
def VectorPipe.do_load (p : VectorPipe) : VectorPipe :=
  match p.load_stage with
  | none => p
  | some ls =>
    let p :=
      match p.stage.getD ls none with
      | some (instr, s) =>
        if !instr.loads.isEmpty then
          let la := vecSlice instr.loads s (eslices p.slices instr)
          if (alookup (instr, s, la.1) p.stalling_loads).isNone then
            { p with mem := p.mem.issue_load (instr, s) la.1
                     stalling_loads := aset (instr, s, la.1) none p.stalling_loads }
          else p
        else p
      | none => p
    match p.stage.getD (ls + p.fixed_load_latency) none with
    | some (instr, s) =>
      if !instr.loads.isEmpty then
        let la := vecSlice instr.loads s (eslices p.slices instr)
        let p :=
          if (alookup (instr, s, la.1) p.stalling_loads).getD none = none then
            { p with stalling_loads := aset (instr, s, la.1) (some true) p.stalling_loads }
          else p
        let rm := p.mem.take_load_replys (instr, s)
        let p := { p with mem := rm.2 }
        rm.1.foldl (fun (p : VectorPipe) load =>
          { p with stalling_loads := aset (instr, s, load) (some false) p.stalling_loads }) p
      else p
    | none => p

/-- `VectorPipe.do_store` (lines 169-191), symmetric to `do_load`. -/
def VectorPipe.do_store (p : VectorPipe) : VectorPipe :=
  match p.store_stage with
  | none => p
  | some ss =>
    let p :=
      match p.stage.getD ss none with
      | some (instr, s) =>
        if !instr.stores.isEmpty then
          let sa := vecSlice instr.stores s (eslices p.slices instr)
          if (alookup (instr, s, sa.1) p.stalling_stores).isNone then
            { p with mem := p.mem.issue_store (instr, s) sa.1
                     stalling_stores := aset (instr, s, sa.1) none p.stalling_stores }
          else p
        else p
      | none => p
    match p.stage.getD (ss + p.fixed_store_latency) none with
    | some (instr, s) =>
      if !instr.stores.isEmpty then
        let sa := vecSlice instr.stores s (eslices p.slices instr)
        let p :=
          if (alookup (instr, s, sa.1) p.stalling_stores).getD none = none then
            { p with stalling_stores := aset (instr, s, sa.1) (some true) p.stalling_stores }
          else p
        let rm := p.mem.take_store_replys (instr, s)
        let p := { p with mem := rm.2 }
        rm.1.foldl (fun (p : VectorPipe) store =>
          { p with stalling_stores := aset (instr, s, store) (some false) p.stalling_stores }) p
      else p
    | none => p

/-- `VectorPipe.is_ready` (lines 325-331): additionally requires the
inflight slice stream to be done. -/
def VectorPipe.is_ready (p : VectorPipe) : Bool :=
  if p.pipelined then p.inflight_instr.isNone && (p.stage.getD 0 none).isNone
  else p.inflight_instr.isNone && p.stage.all (·.isNone)

/-- `VectorPipe.try_issue` (lines 333-356): as the scalar pipe's, but the
instruction enters stage 0 as slice 0 and, when it has more than one
slice, becomes the inflight instruction with next slice 1. -/
def VectorPipe.try_issue (p : VectorPipe) (sbs : SBs) (c : Counter)
    (i : Instruction) : Bool × VectorPipe × SBs × Counter :=
  if !(sbs.all (fun e => e.2.can_issue i)) then (false, p, sbs, c)
  else if p.reg_read_stall sbs i 0 then (false, p, sbs, c)
  else
    let p := { p with stage := p.stage.set 0 (some (i, 0)) }
    let c := c.bumpUtilCount (p.name ++ ".pipe") 1
    let p :=
      if 1 < eslices p.slices i then
        { p with inflight_instr := some i, inflight_next_slice := 1 }
      else p
    let sbs := sbs.map (fun e => (e.1, e.2.issue i))
    let sbs := p.sb_reg_read sbs i 0
    (true, p, sbs, c)

/-- The issue loop at the end of `VectorPipe.tick` (lines 270-277), same
shape as the scalar pipe's. -/
def VectorPipe.issue_from_eiq : VectorPipe → SBs → Counter → Nat →
    VectorPipe × SBs × Counter
  | p, sbs, c, 0 => (p, sbs, c)
  | p, sbs, c, n + 1 =>
    match p.eiq.committed with
    | [] => (p, sbs, c)
    | instr :: rest =>
      let p := { p with eiq := { p.eiq with committed := rest } }
      match VectorPipe.try_issue p sbs c instr with
      | (true, p', sbs', c') => (p', sbs', c')
      | (false, p', sbs', c') =>
        VectorPipe.issue_from_eiq
          { p' with eiq := { p'.eiq with committed := p'.eiq.committed ++ [instr] } }
          sbs' c' n

/-- The success condition of `VectorPipe.try_issue`, as a pure predicate of
the (shared) scoreboard state: every scoreboard reports `can_issue` and
slice 0's register reads do not stall.  `try_issue` mutates nothing when
this is false.  It reads the pipe only through `slices`. -/
def vecTryIssueOk (p : VectorPipe) (sbs : SBs) (i : Instruction) : Bool :=
  sbs.all (fun e => e.2.can_issue i) && !(p.reg_read_stall sbs i 0)

/-- A ready pipelined vector pipe whose committed EIQ holds
`[i1C10, i2C10]` (for C10's witness: on `sbsC10`, `i1C10` is blocked and
`i2C10` issues, in the vector pipe exactly as in the scalar one). -/
def vC10 : VectorPipe :=
  { name := "valu0", slices := 2, eiq := ⟨[i1C10, i2C10], [], none⟩,
    stage := [none], writebackq := ⟨[], [], none⟩ }

/-- Lines 213-223 of `VectorPipe.tick`: drop the stall-map entry of the
load completed by the slice leaving the pipe (the source asserts it is not
awaiting). -/
def VectorPipe.cleanupLoads (p : VectorPipe) : VectorPipe :=
  match p.load_stage with
  | some ls =>
    (match p.stage.getD (ls + p.fixed_load_latency) none with
     | some (instr, s) =>
       if !instr.loads.isEmpty then
         { p with stalling_loads := aremove (instr, s, (vecSlice instr.loads s (eslices p.slices instr)).1) p.stalling_loads }
       else p
     | none => p)
  | none => p

/-- Lines 225-236 of `VectorPipe.tick`, symmetric for stores. -/
def VectorPipe.cleanupStores (p : VectorPipe) : VectorPipe :=
  match p.store_stage with
  | some ss =>
    (match p.stage.getD (ss + p.fixed_store_latency) none with
     | some (instr, s) =>
       if !instr.stores.isEmpty then
         { p with stalling_stores := aremove (instr, s, (vecSlice instr.stores s (eslices p.slices instr)).1) p.stalling_stores }
       else p
     | none => p)
  | none => p

/-- Lines 238-249 of `VectorPipe.tick`: pop the last stage; a slice that
writes registers moves to the WBQ's buffered side (with `buff_write` and
the WBQ utilization bump); the last slice of an instruction with no writes
at this slice retires the instruction. -/
def VectorPipe.shiftOut (p : VectorPipe) (sbs : SBs) (c : Counter) :
    VectorPipe × SBs × Counter :=
  let last := (p.stage.getLast?).getD none
  let p := { p with stage := p.stage.dropLast }
  match last with
  | some (instr, s) =>
    if (output_seq_by_type p.slices instr).any (fun tyseq =>
        decide (s < tyseq.2.length) && !(tyseq.2.getD s []).isEmpty) then
      ({ p with writebackq := p.writebackq.buffer (instr, s) },
       VectorPipe.sb_buff_reg_write p sbs instr s,
       c.bumpUtilCount (p.name ++ ".wbq") 1)
    else if s + 1 = eslices p.slices instr then
      ({ p with retired_instrs := p.retired_instrs ++ [instr] }, sbs, c)
    else (p, sbs, c)
  | none => (p, sbs, c)

/-- Lines 251-265 of `VectorPipe.tick`: issue the next inflight slice
into stage 0 when its reads are ready (clearing `inflight` after the last
slice), else prepend a `None` bubble. -/
def VectorPipe.feedSlice (p : VectorPipe) (sbs : SBs) (c : Counter) :
    VectorPipe × SBs × Counter :=
  match p.inflight_instr with
  | some ii =>
    if !(p.reg_read_stall sbs ii p.inflight_next_slice) then
      let sbs := p.sb_reg_read sbs ii p.inflight_next_slice
      let p := { p with stage := (some (ii, p.inflight_next_slice)) :: p.stage }
      let c := c.bumpUtilCount (p.name ++ ".pipe") 1
      let p := { p with inflight_next_slice := p.inflight_next_slice + 1 }
      let p :=
        if p.inflight_next_slice = eslices p.slices ii then
          { p with inflight_instr := none }
        else p
      (p, sbs, c)
    else ({ p with stage := none :: p.stage }, sbs, c)
  | none => ({ p with stage := none :: p.stage }, sbs, c)

/-- The not-stalled block of `VectorPipe.tick` (lines 213-265): clean up
the completed memory ops, shift the stages, and feed the next inflight
slice (or a bubble) into stage 0. -/
def VectorPipe.advance (p : VectorPipe) (sbs : SBs) (c : Counter) :
    VectorPipe × SBs × Counter :=
  let p := VectorPipe.cleanupLoads p
  let p := VectorPipe.cleanupStores p
  let r1 := VectorPipe.shiftOut p sbs c
  VectorPipe.feedSlice r1.1 r1.2.1 r1.2.2

/-- `VectorPipe.tick` (lines 205-277): writeback attempt; the
`advance` block above unless stalled; then `do_load` / `do_store`; finally
the issue loop when `is_ready`. -/
def VectorPipe.tick (p : VectorPipe) (sbs : SBs) (c : Counter) :
    VectorPipe × SBs × Counter :=
  let p := { p with retired_instrs := [] }
  let psbs := VectorPipe.do_reg_writeback p sbs
  let p := psbs.1
  let sbs := psbs.2
  let stc := VectorPipe.stall p c
  let c := stc.2
  let r := if !stc.1 then VectorPipe.advance p sbs c else (p, sbs, c)
  let p := r.1
  let sbs := r.2.1
  let c := r.2.2
  let p := VectorPipe.do_load p
  let p := VectorPipe.do_store p
  if p.is_ready then
    VectorPipe.issue_from_eiq p sbs c p.eiq.committed.length
  else (p, sbs, c)

/-- `VectorPipe.tock` (lines 280-292). -/
def VectorPipe.tock (p : VectorPipe) (c : Counter) : VectorPipe × Counter :=
  let p := { p with retired_instrs := [] }
  let c := c.bumpUtilOccupied (p.name ++ ".pipe")
    (p.stage.filter (·.isSome)).length
  let p := { p with eiq := p.eiq.flush }
  let c := c.bumpUtilOccupied (p.name ++ ".eiq") p.eiq.committed.length
  let p := { p with writebackq := p.writebackq.flush }
  let c := c.bumpUtilOccupied (p.name ++ ".wbq") p.writebackq.committed.length
  (p, c)

/-- `VectorPipe.pending` (lines 295-299). -/
def VectorPipe.pending (p : VectorPipe) : Nat :=
  p.eiq.chain.length + (p.stage.filter (·.isSome)).length +
    p.writebackq.chain.length

/-- `VectorPipe.try_dispatch` (lines 302-323): as the scalar pipe's, with
the flattened per-slice register sequences as the read/write sets and the
vector load/store dispatch counter. -/
def VectorPipe.try_dispatch (p : VectorPipe) (sbs : SBs) (c : Counter)
    (i : Instruction) : Bool × VectorPipe × SBs × Counter :=
  if p.eiq.is_buffer_full then (false, p, sbs, c)
  else
    let inputs := input_seq_by_type p.slices i
    let outputs := output_seq_by_type p.slices i
    let rfs := (inputs.map (·.1) ++ outputs.map (·.1)).dedup
    let sbs := rfs.foldl (fun sbs rf =>
      sbApply sbs rf (fun a => a.insert_accesses i
        ((alookup rf inputs).getD []).flatten
        ((alookup rf outputs).getD []).flatten)) sbs
    let r :=
      if p.can_skip_eiq && p.is_ready then
        VectorPipe.try_issue p sbs c i
      else (false, p, sbs, c)
    let p := r.2.1
    let sbs := r.2.2.1
    let c := r.2.2.2
    let pc :=
      if !r.1 then
        ({ p with eiq := p.eiq.buffer i }, c.bumpUtilCount (p.name ++ ".eiq") 1)
      else (p, c)
    let p := pc.1
    let c := pc.2
    let c := if !i.loads.isEmpty || !i.stores.isEmpty then c.bumpVectorLS else c
    (true, p, sbs, c)

/-! ### Execution pipelines, scalar or vector (`interfaces.ExecPipeline`) -/

inductive Pipe where
  | scalar (p : ScalarPipe)
  | vector (p : VectorPipe)
deriving DecidableEq

def Pipe.tick (p : Pipe) (sbs : SBs) (c : Counter) : Pipe × SBs × Counter :=
  match p with
  | .scalar p => let r := ScalarPipe.tick p sbs c; (.scalar r.1, r.2)
  | .vector p => let r := VectorPipe.tick p sbs c; (.vector r.1, r.2)

def Pipe.tock (p : Pipe) (c : Counter) : Pipe × Counter :=
  match p with
  | .scalar p => let r := ScalarPipe.tock p c; (.scalar r.1, r.2)
  | .vector p => let r := VectorPipe.tock p c; (.vector r.1, r.2)

def Pipe.retired_instrs (p : Pipe) : List Instruction :=
  match p with
  | .scalar p => p.retired_instrs
  | .vector p => p.retired_instrs

def Pipe.pendingCount (p : Pipe) : Nat :=
  match p with
  | .scalar p => p.pending
  | .vector p => p.pending

def Pipe.issue_queue_id (p : Pipe) : String :=
  match p with
  | .scalar p => p.issue_queue_id
  | .vector p => p.issue_queue_id

def Pipe.try_dispatch (p : Pipe) (sbs : SBs) (c : Counter) (i : Instruction) :
    Bool × Pipe × SBs × Counter :=
  match p with
  | .scalar p => let r := ScalarPipe.try_dispatch p sbs c i; (r.1, .scalar r.2.1, r.2.2)
  | .vector p => let r := VectorPipe.try_dispatch p sbs c i; (r.1, .vector r.2.1, r.2.2)

/-! ### ExecUnit (`src/exec_unit.py`) -/

structure Exec where
  branch_prediction : BP
  pipe_map : List (String × String)
  pipes : List (String × List Pipe)
  retired_instructions : List Instruction := []
  phase : Option Phase := none
deriving DecidableEq

/-- `ExecUnit.pending` (lines 44-45). -/
def Exec.pendingCount (ex : Exec) : Nat :=
  (ex.pipes.map (fun kps => (kps.2.map Pipe.pendingCount).sum)).sum

/-- `ExecUnit.get_functional_unit` (lines 52-59): unknown mnemonics are
fatal (`sys.exit(1)`). -/
def Exec.get_functional_unit (ex : Exec) (i : Instruction) :
    Except PyError String :=
  match alookup i.mnemonic ex.pipe_map with
  | some k => .ok k
  | none => .error (.sysExit 1)

/-- `ExecUnit.get_issue_queue_id` (lines 48-50): the issue queue of the
first pipe of the instruction's kind (`add_pipe` asserts the pipe list is
non-empty; an empty list is the `IndexError` of `self._pipes[kind][0]`). -/
def Exec.get_issue_queue_id (ex : Exec) (i : Instruction) :
    Except PyError String :=
  match ex.get_functional_unit i with
  | .error e => .error e
  | .ok kind =>
    match (alookup kind ex.pipes).getD [] with
    | p :: _ => .ok p.issue_queue_id
    | [] => .error .indexError

/-! ### SchedUnit (`src/tbm/sched_unit.py`) -/

structure Sched where
  decode_rate : Option Nat := none
  branch_prediction : BP
  queues : List (String × BQ Instruction)
  branch_stalling : Bool := false
  next_branch_stalling : Option Bool := none
  phase : Option Phase := none
deriving DecidableEq

/-- `SchedUnit.pending` (lines 58-59): committed lengths of the dispatch
queues. -/
def Sched.pendingCount (sc : Sched) : Nat :=
  (sc.queues.map (fun e => e.2.committed.length)).sum

/-- `self._queues[qid]`. -/
def Sched.queueOf (sc : Sched) (qid : String) : BQ Instruction :=
  (alookup qid sc.queues).getD ⟨[], [], none⟩

/-- `SchedUnit.branch_resolved` (lines 182-187): clear `branch_stalling`,
immediately in TOCK, deferred in TICK (the `phase` property asserts a
phase exists). -/
def Sched.branch_resolved (sc : Sched) : Except PyError Sched :=
  match sc.phase with
  | some .TICK => .ok { sc with next_branch_stalling := some false }
  | some .TOCK => .ok { sc with branch_stalling := false }
  | none => .error .assertionError

/-- `SchedUnit.check_conflicts` (lines 154-179): `True` iff the
instruction conflicts with nothing queued (committed or pending) in any
*other* dispatch queue.  `conf` is `Instruction.conflicts_with`, modelled
from the spec as an opaque structural-conflict predicate (the
`Instruction` class is external to `src/`). -/
def Sched.check_conflicts (conf : Instruction → Instruction → Bool)
    (sc : Sched) (new_instr : Instruction) (qid : String) : Bool :=
  sc.queues.all (fun e =>
    if e.1 = qid then true
    else e.2.chain.all (fun j => !conf new_instr j))

/-- The decode loop of `SchedUnit.tick` (lines 77-138), one recursive call
per `range` iteration: stop on an empty fetch queue; drop `None` holes;
hold a flush instruction while anything is in flight (stall); retire NOPs
on the spot (`cntr.retired_instruction_count += 1`); resolve the dispatch
queue (fatal on unknown mnemonic), stalling when it is full or a conflict
exists; otherwise buffer the instruction, and after queuing a branch under
no-prediction raise `branch_stalling` and stop. -/
def Sched.schedLoop (conf : Instruction → Instruction → Bool) (ex : Exec) :
    Sched → Fetch → Counter → Nat → Except PyError (Sched × Fetch × Counter)
  | sc, fu, c, 0 => .ok (sc, fu, c)
  | sc, fu, c, n + 1 =>
    match fu.queue.peek with
    | none => .ok (sc, fu, c)
    | some none =>
      Sched.schedLoop conf ex sc { fu with queue := fu.queue.dequeueD } c n
    | some (some instr) =>
      if instr.is_flush &&
          (decide (0 < sc.pendingCount) || decide (0 < ex.pendingCount)) then
        .ok (sc, fu, c.bumpStall "SC")
      else if instr.is_nop then
        Sched.schedLoop conf ex sc { fu with queue := fu.queue.dequeueD }
          (c.addRetired 1) n
      else
        match ex.get_issue_queue_id instr with
        | .error e => .error e
        | .ok qid =>
          if (sc.queueOf qid).is_buffer_full then
            .ok (sc, fu, c.bumpStall "SC")
          else if !(sc.check_conflicts conf instr qid) then
            .ok (sc, fu, c.bumpStall "SC")
          else
            let sc := { sc with queues := aupdate qid (fun q => q.buffer instr) sc.queues }
            let fu := { fu with queue := fu.queue.dequeueD }
            let c := c.bumpUtilCount qid 1
            if instr.is_branch then
              let c := c.bumpBranch
              if sc.branch_prediction = BP.nopred then
                .ok ({ sc with branch_stalling := true }, fu, c)
              else Sched.schedLoop conf ex sc fu c n
            else Sched.schedLoop conf ex sc fu c n

/-- `SchedUnit.tick` (lines 70-138): no work while `branch_stalling`; else
up to `decode_rate` iterations (Python truthiness: `None` *or zero* fall
back to the fetch queue's current length) of the decode loop. -/
def Sched.tick (conf : Instruction → Instruction → Bool) (ex : Exec)
    (sc : Sched) (fu : Fetch) (c : Counter) :
    Except PyError (Sched × Fetch × Counter) :=
  let sc := { sc with phase := some Phase.TICK }
  if sc.branch_stalling then .ok (sc, fu, c)
  else
    let iters :=
      match sc.decode_rate with
      | some (n + 1) => n + 1
      | _ => fu.queue.committed.length
    Sched.schedLoop conf ex sc fu c iters

/-- `SchedUnit.tock` (lines 141-152): flush every dispatch queue, apply a
deferred `branch_stalling`, sample occupancies. -/
def Sched.tock (sc : Sched) (c : Counter) : Sched × Counter :=
  let sc := { sc with phase := some Phase.TOCK
                      queues := sc.queues.map
                        (fun (e : String × BQ Instruction) => (e.1, e.2.flush)) }
  let sc :=
    match sc.next_branch_stalling with
    | some v => { sc with branch_stalling := v, next_branch_stalling := none }
    | none => sc
  let c := sc.queues.foldl (fun c e =>
    c.bumpUtilOccupied e.1 e.2.committed.length) c
  (sc, c)

/-- Ticking one kind's pipe list in order, collecting each pipe's
freshly-retired instructions (`exec_unit.py` lines 84-87). -/
def Exec.tickPipeList : List Pipe → SBs → Counter →
    List Pipe × SBs × Counter × List Instruction
  | [], sbs, c => ([], sbs, c, [])
  | p :: ps, sbs, c =>
    let r := Pipe.tick p sbs c
    let rest := Exec.tickPipeList ps r.2.1 r.2.2
    (r.1 :: rest.1, rest.2.1, rest.2.2.1,
     Pipe.retired_instrs r.1 ++ rest.2.2.2)

/-- Ticking every pipe of every kind (`for ps in self._pipes.values()`). -/
def Exec.tickPipes : List (String × List Pipe) → SBs → Counter →
    List (String × List Pipe) × SBs × Counter × List Instruction
  | [], sbs, c => ([], sbs, c, [])
  | (k, ps) :: rest, sbs, c =>
    let r := Exec.tickPipeList ps sbs c
    let r2 := Exec.tickPipes rest r.2.1 r.2.2.1
    ((k, r.1) :: r2.1, r2.2.1, r2.2.2.1, r.2.2.2 ++ r2.2.2.2)

/-- `ExecUnit.dispatch_instruction` (lines 124-132): try every pipe of the
instruction's kind in order; the first acceptance wins. -/
def Exec.tryPipes (i : Instruction) : List Pipe → SBs → Counter →
    Bool × List Pipe × SBs × Counter
  | [], sbs, c => (false, [], sbs, c)
  | p :: ps, sbs, c =>
    let r := Pipe.try_dispatch p sbs c i
    if r.1 then (true, r.2.1 :: ps, r.2.2)
    else
      let rest := Exec.tryPipes i ps r.2.2.1 r.2.2.2
      (rest.1, r.2.1 :: rest.2.1, rest.2.2)

def Exec.dispatch_instruction (ex : Exec) (sbs : SBs) (c : Counter)
    (i : Instruction) : Except PyError (Bool × Exec × SBs × Counter) :=
  match ex.get_functional_unit i with
  | .error e => .error e
  | .ok kind =>
    let r := Exec.tryPipes i ((alookup kind ex.pipes).getD []) sbs c
    .ok (r.1, { ex with pipes := aupdate kind (fun _ => r.2.1) ex.pipes },
         r.2.2.1, r.2.2.2)

/-- The inner `while dq:` loop of `ExecUnit.tick` (lines 96-101): pop the
dispatch queue head as long as it dispatches somewhere. -/
def Exec.dispatchQueue (ex : Exec) (sbs : SBs) (c : Counter) :
    List Instruction → Except PyError (Exec × SBs × Counter × List Instruction)
  | [] => .ok (ex, sbs, c, [])
  | i :: rest =>
    match Exec.dispatch_instruction ex sbs c i with
    | .error e => .error e
    | .ok (true, ex, sbs, c) => Exec.dispatchQueue ex sbs c rest
    | .ok (false, ex, sbs, c) => .ok (ex, sbs, c, i :: rest)

/-- `for dq in self._sched_unit.queues: ...` over the dispatch queues. -/
def Exec.dispatchAll (ex : Exec) (sbs : SBs) (c : Counter) :
    List (String × BQ Instruction) →
    Except PyError (Exec × SBs × Counter × List (String × BQ Instruction))
  | [] => .ok (ex, sbs, c, [])
  | (qid, dq) :: rest =>
    match Exec.dispatchQueue ex sbs c dq.committed with
    | .error e => .error e
    | .ok (ex, sbs, c, remaining) =>
      match Exec.dispatchAll ex sbs c rest with
      | .error e => .error e
      | .ok (ex, sbs, c, rest') =>
        .ok (ex, sbs, c, (qid, { dq with committed := remaining }) :: rest')

/-- `ExecUnit.tick` (lines 70-104), in reverse instruction-flow order:
tick every scoreboard (a no-op, `scoreboard.py` lines 282-283), tick every
pipe collecting the retired instructions, notify `SchedUnit` and
`FetchUnit` once when a branch retired under no-prediction (note
`FetchUnit.branch_resolved` raises, see C2), dispatch from the dispatch
queues, and add the retired count. -/
def Exec.tick (ex : Exec) (sbs : SBs) (sc : Sched) (fu : Fetch)
    (c : Counter) : Except PyError (Exec × SBs × Sched × Fetch × Counter) :=
  let ex := { ex with phase := some Phase.TICK, retired_instructions := [] }
  let r := Exec.tickPipes ex.pipes sbs c
  let ex := { ex with pipes := r.1, retired_instructions := r.2.2.2 }
  let sbs := r.2.1
  let c := r.2.2.1
  let notify : Except PyError (Sched × Fetch) :=
    if ex.branch_prediction = BP.nopred &&
        ex.retired_instructions.any (·.is_branch) then
      match sc.branch_resolved with
      | .error e => .error e
      | .ok sc =>
        match fu.branch_resolved with
        | .error e => .error e
        | .ok fu => .ok (sc, fu)
    else .ok (sc, fu)
  match notify with
  | .error e => .error e
  | .ok (sc, fu) =>
    match Exec.dispatchAll ex sbs c sc.queues with
    | .error e => .error e
    | .ok (ex, sbs, c, queues) =>
      .ok (ex, sbs, { sc with queues := queues }, fu,
           c.addRetired ex.retired_instructions.length)

/-- Tocking every pipe of every kind, collecting `retired_instrs`
afterwards (each pipe's tock clears its list first, so the collection is
empty — mirrored faithfully from `exec_unit.py` lines 116-119). -/
def Exec.tockPipes : List (String × List Pipe) → Counter →
    List (String × List Pipe) × Counter × List Instruction
  | [], c => ([], c, [])
  | (k, ps) :: rest, c =>
    let r := ps.foldl
      (fun (acc : List Pipe × Counter × List Instruction) p =>
        let t := Pipe.tock p acc.2.1
        (acc.1 ++ [t.1], t.2, acc.2.2 ++ Pipe.retired_instrs t.1))
      ([], c, [])
    let r2 := Exec.tockPipes rest r.2.1
    ((k, r.1) :: r2.1, r2.2.1, r.2.2 ++ r2.2.2)

/-- `ExecUnit.tock` (lines 107-122): tock every scoreboard (clearing the
per-cycle port counters) and every pipe, then add the (empty) retired
collection to the count. -/
def Exec.tock (ex : Exec) (sbs : SBs) (c : Counter) : Exec × SBs × Counter :=
  let ex := { ex with phase := some Phase.TOCK, retired_instructions := [] }
  let sbs := sbs.map (fun e => (e.1, e.2.tock))
  let r := Exec.tockPipes ex.pipes c
  let ex := { ex with pipes := r.1, retired_instructions := r.2.2 }
  (ex, sbs, r.2.1.addRetired ex.retired_instructions.length)

/-- A trivial conflict predicate (no structural conflicts) for concrete
runs. -/
def conf0 : Instruction → Instruction → Bool := fun _ _ => false

/-- A minimal fetch unit (perfect prediction, empty trace). -/
def fu0 : Fetch :=
  { branch_prediction := .perfect, fetch_rate := 1,
    queue := ⟨[], [], none⟩, trace := [] }

/-- A minimal sched unit (no dispatch queues). -/
def sc0 : Sched := { branch_prediction := .perfect, queues := [] }

/-- A minimal exec unit (no pipes). -/
def ex0 : Exec := { branch_prediction := .perfect, pipe_map := [], pipes := [] }

/-! ## Theorems -/

/-! ### How each counter operation affects `retired_instruction_count` -/

@[simp] theorem bumpStall_retired (c : Counter) (n : String) :
    (c.bumpStall n).retired_instruction_count = c.retired_instruction_count := rfl

@[simp] theorem bumpUtilCount_retired (c : Counter) (n : String) (k : Nat) :
    (c.bumpUtilCount n k).retired_instruction_count = c.retired_instruction_count := rfl

@[simp] theorem bumpUtilOccupied_retired (c : Counter) (n : String) (k : Nat) :
    (c.bumpUtilOccupied n k).retired_instruction_count = c.retired_instruction_count := rfl

@[simp] theorem bumpBranch_retired (c : Counter) :
    c.bumpBranch.retired_instruction_count = c.retired_instruction_count := rfl

@[simp] theorem bumpScalarLS_retired (c : Counter) :
    c.bumpScalarLS.retired_instruction_count = c.retired_instruction_count := rfl

@[simp] theorem bumpScalarLSStall_retired (c : Counter) :
    c.bumpScalarLSStall.retired_instruction_count = c.retired_instruction_count := rfl

@[simp] theorem bumpVectorLS_retired (c : Counter) :
    c.bumpVectorLS.retired_instruction_count = c.retired_instruction_count := rfl

@[simp] theorem bumpVectorLSStall_retired (c : Counter) :
    c.bumpVectorLSStall.retired_instruction_count = c.retired_instruction_count := rfl

@[simp] theorem addRetired_retired (c : Counter) (n : Nat) :
    (c.addRetired n).retired_instruction_count = c.retired_instruction_count + n := rfl

/-! ### The pipes never change the retired count during tick/tock/dispatch -/

@[simp] theorem scalar_stall_retired (p : ScalarPipe) (c : Counter) :
    (ScalarPipe.stall p c).2.retired_instruction_count =
      c.retired_instruction_count := by
  unfold ScalarPipe.stall
  repeat' split
  all_goals simp

@[simp] theorem scalar_try_issue_retired (p : ScalarPipe) (sbs : SBs)
    (c : Counter) (i : Instruction) :
    (ScalarPipe.try_issue p sbs c i).2.2.2.retired_instruction_count =
      c.retired_instruction_count := by
  unfold ScalarPipe.try_issue
  repeat' split
  all_goals simp

@[simp] theorem scalar_issue_from_eiq_retired :
    ∀ (fuel : Nat) (p : ScalarPipe) (sbs : SBs) (c : Counter),
    (ScalarPipe.issue_from_eiq p sbs c fuel).2.2.retired_instruction_count =
      c.retired_instruction_count := by
  intro fuel
  induction fuel with
  | zero => intro p sbs c; rfl
  | succ n ih =>
    intro p sbs c
    rw [ScalarPipe.issue_from_eiq]
    rcases hq : p.eiq.committed with _ | ⟨i, rest⟩
    · rfl
    · simp only
      rcases ht : ScalarPipe.try_issue
          { p with eiq := { p.eiq with committed := rest } } sbs c i
        with ⟨b, p', sbs', c'⟩
      have hc' : c'.retired_instruction_count = c.retired_instruction_count := by
        have := scalar_try_issue_retired
          { p with eiq := { p.eiq with committed := rest } } sbs c i
        rw [ht] at this
        exact this
      rcases b with _ | _
      · simp [ih, hc']
      · simp [hc']

@[simp] theorem scalar_tick_retired (p : ScalarPipe) (sbs : SBs) (c : Counter) :
    (ScalarPipe.tick p sbs c).2.2.retired_instruction_count =
      c.retired_instruction_count := by
  simp only [ScalarPipe.tick]
  repeat' split
  all_goals simp

@[simp] theorem scalar_tock_retired (p : ScalarPipe) (c : Counter) :
    (ScalarPipe.tock p c).2.retired_instruction_count =
      c.retired_instruction_count := by
  simp [ScalarPipe.tock]

@[simp] theorem scalar_try_dispatch_retired (p : ScalarPipe) (sbs : SBs)
    (c : Counter) (i : Instruction) :
    (ScalarPipe.try_dispatch p sbs c i).2.2.2.retired_instruction_count =
      c.retired_instruction_count := by
  simp only [ScalarPipe.try_dispatch]
  repeat' split
  all_goals simp

@[simp] theorem vector_stall_retired (p : VectorPipe) (c : Counter) :
    (VectorPipe.stall p c).2.retired_instruction_count =
      c.retired_instruction_count := by
  unfold VectorPipe.stall
  repeat' split
  all_goals simp

@[simp] theorem vector_try_issue_retired (p : VectorPipe) (sbs : SBs)
    (c : Counter) (i : Instruction) :
    (VectorPipe.try_issue p sbs c i).2.2.2.retired_instruction_count =
      c.retired_instruction_count := by
  unfold VectorPipe.try_issue
  repeat' split
  all_goals simp

@[simp] theorem vector_issue_from_eiq_retired :
    ∀ (fuel : Nat) (p : VectorPipe) (sbs : SBs) (c : Counter),
    (VectorPipe.issue_from_eiq p sbs c fuel).2.2.retired_instruction_count =
      c.retired_instruction_count := by
  intro fuel
  induction fuel with
  | zero => intro p sbs c; rfl
  | succ n ih =>
    intro p sbs c
    rw [VectorPipe.issue_from_eiq]
    rcases hq : p.eiq.committed with _ | ⟨i, rest⟩
    · rfl
    · simp only
      rcases ht : VectorPipe.try_issue
          { p with eiq := { p.eiq with committed := rest } } sbs c i
        with ⟨b, p', sbs', c'⟩
      have hc' : c'.retired_instruction_count = c.retired_instruction_count := by
        have := vector_try_issue_retired
          { p with eiq := { p.eiq with committed := rest } } sbs c i
        rw [ht] at this
        exact this
      rcases b with _ | _
      · simp [ih, hc']
      · simp [hc']

@[simp] theorem vector_shiftOut_retired (p : VectorPipe) (sbs : SBs)
    (c : Counter) :
    (VectorPipe.shiftOut p sbs c).2.2.retired_instruction_count =
      c.retired_instruction_count := by
  simp only [VectorPipe.shiftOut]
  repeat' split
  all_goals simp

@[simp] theorem vector_feedSlice_retired (p : VectorPipe) (sbs : SBs)
    (c : Counter) :
    (VectorPipe.feedSlice p sbs c).2.2.retired_instruction_count =
      c.retired_instruction_count := by
  simp only [VectorPipe.feedSlice]
  repeat' split
  all_goals simp

@[simp] theorem vector_advance_retired (p : VectorPipe) (sbs : SBs)
    (c : Counter) :
    (VectorPipe.advance p sbs c).2.2.retired_instruction_count =
      c.retired_instruction_count := by
  simp [VectorPipe.advance]

@[simp] theorem vector_tick_retired (p : VectorPipe) (sbs : SBs) (c : Counter) :
    (VectorPipe.tick p sbs c).2.2.retired_instruction_count =
      c.retired_instruction_count := by
  simp only [VectorPipe.tick]
  repeat' split
  all_goals simp

@[simp] theorem vector_tock_retired (p : VectorPipe) (c : Counter) :
    (VectorPipe.tock p c).2.retired_instruction_count =
      c.retired_instruction_count := by
  simp [VectorPipe.tock]

@[simp] theorem vector_try_dispatch_retired (p : VectorPipe) (sbs : SBs)
    (c : Counter) (i : Instruction) :
    (VectorPipe.try_dispatch p sbs c i).2.2.2.retired_instruction_count =
      c.retired_instruction_count := by
  simp only [VectorPipe.try_dispatch]
  repeat' split
  all_goals simp

@[simp] theorem pipe_tick_retired (p : Pipe) (sbs : SBs) (c : Counter) :
    (Pipe.tick p sbs c).2.2.retired_instruction_count =
      c.retired_instruction_count := by
  rcases p with p | p <;> simp [Pipe.tick]

@[simp] theorem pipe_tock_retired (p : Pipe) (c : Counter) :
    (Pipe.tock p c).2.retired_instruction_count =
      c.retired_instruction_count := by
  rcases p with p | p <;> simp [Pipe.tock]

@[simp] theorem pipe_try_dispatch_retired (p : Pipe) (sbs : SBs) (c : Counter)
    (i : Instruction) :
    (Pipe.try_dispatch p sbs c i).2.2.2.retired_instruction_count =
      c.retired_instruction_count := by
  rcases p with p | p <;> simp [Pipe.try_dispatch]

/-! ### Neither does the fetch unit -/

@[simp] theorem fetch_batch_retired (fu : Fetch) (c : Counter) :
    (Fetch.fetchBatch fu c).2.retired_instruction_count =
      c.retired_instruction_count := by
  simp [Fetch.fetchBatch]

@[simp] theorem fetch_tick_retired (fu : Fetch) (c : Counter) :
    (Fetch.tick fu c).2.retired_instruction_count =
      c.retired_instruction_count := by
  simp only [Fetch.tick]
  repeat' split
  all_goals simp

@[simp] theorem fetch_tock_retired (fu : Fetch) (c : Counter) :
    (Fetch.tock fu c).2.retired_instruction_count =
      c.retired_instruction_count := by
  simp only [Fetch.tock]
  repeat' split
  all_goals simp

/-- `try_issue`'s Boolean result is exactly `tryIssueOk`. -/
theorem try_issue_fst (p : ScalarPipe) (sbs : SBs) (c : Counter)
    (i : Instruction) :
    (ScalarPipe.try_issue p sbs c i).1 = tryIssueOk sbs i := by
  unfold ScalarPipe.try_issue tryIssueOk
  rcases hb : sbs.all (fun e => e.2.can_issue i) with _ | _ <;>
    rcases hr : ScalarPipe.reg_read_stall sbs i with _ | _ <;> simp [hb, hr]

/-- A failing `try_issue` changes nothing: the pipe, the scoreboards and
the counters are returned as they were. -/
theorem try_issue_fail_pure (p : ScalarPipe) (sbs : SBs) (c : Counter)
    (i : Instruction) (h : tryIssueOk sbs i = false) :
    ScalarPipe.try_issue p sbs c i = (false, p, sbs, c) := by
  unfold tryIssueOk at h
  unfold ScalarPipe.try_issue
  rcases hb : sbs.all (fun e => e.2.can_issue i) with _ | _ <;>
    rcases hr : ScalarPipe.reg_read_stall sbs i with _ | _ <;>
    simp_all

/-- A successful `try_issue` does not touch the EIQ. -/
theorem try_issue_eiq (p : ScalarPipe) (sbs : SBs) (c : Counter)
    (i : Instruction) :
    (ScalarPipe.try_issue p sbs c i).2.1.eiq = p.eiq := by
  unfold ScalarPipe.try_issue
  rcases hb : sbs.all (fun e => e.2.can_issue i) with _ | _ <;>
    rcases hr : ScalarPipe.reg_read_stall sbs i with _ | _ <;> simp [hb, hr]

/-- The issue loop rotates the failing prefix behind the rest: starting
from committed EIQ contents `pre ++ i :: post` where every entry of `pre`
fails `tryIssueOk` and `i` succeeds, the loop ends in the state `try_issue`
produces from the queue `post ++ pre`. -/
theorem issue_from_eiq_spec (pre : List Instruction) :
    ∀ (fuel : Nat) (p : ScalarPipe) (sbs : SBs) (c : Counter)
      (i : Instruction) (post : List Instruction),
      pre.length + 1 ≤ fuel →
      p.eiq.committed = pre ++ i :: post →
      (∀ x ∈ pre, tryIssueOk sbs x = false) →
      tryIssueOk sbs i = true →
      ScalarPipe.issue_from_eiq p sbs c fuel =
        (ScalarPipe.try_issue
          { p with eiq := { p.eiq with committed := post ++ pre } } sbs c i).2 := by
  induction pre with
  | nil =>
    intro fuel p sbs c i post hf hq hpre hok
    match fuel, hf with
    | n + 1, _ =>
      rw [ScalarPipe.issue_from_eiq, hq]
      simp only [List.nil_append]
      rcases hti : ScalarPipe.try_issue
          { p with eiq := { p.eiq with committed := post } } sbs c i with ⟨b, rest⟩
      have hb : b = true := by
        have := try_issue_fst { p with eiq := { p.eiq with committed := post } } sbs c i
        rw [hti] at this
        simpa [hok] using this
      subst hb
      simp [hti, List.append_nil]
  | cons x pre' ih =>
    intro fuel p sbs c i post hf hq hpre hok
    match fuel, hf with
    | n + 1, hf =>
      rw [ScalarPipe.issue_from_eiq, hq]
      simp only [List.cons_append]
      have hx : tryIssueOk sbs x = false := hpre x (List.mem_cons_self x pre')
      rw [try_issue_fail_pure _ _ _ _ hx]
      simp only
      rw [ih n _ sbs c i (post ++ [x]) (by simpa using Nat.succ_le_succ_iff.mp hf)
        (by simp) (fun y hy => hpre y (List.mem_cons_of_mem x hy)) hok]
      simp [List.append_assoc]

/-- `vecTryIssueOk` ignores the pipe's EIQ: it reads the pipe only through
`slices`, which an EIQ update leaves untouched. -/
theorem vec_tryIssueOk_eiq (p : VectorPipe) (q : BQ Instruction) (sbs : SBs)
    (i : Instruction) :
    vecTryIssueOk { p with eiq := q } sbs i = vecTryIssueOk p sbs i := rfl

/-- `VectorPipe.try_issue`'s Boolean result is exactly `vecTryIssueOk`. -/
theorem vec_try_issue_fst (p : VectorPipe) (sbs : SBs) (c : Counter)
    (i : Instruction) :
    (VectorPipe.try_issue p sbs c i).1 = vecTryIssueOk p sbs i := by
  unfold VectorPipe.try_issue vecTryIssueOk
  rcases hb : sbs.all (fun e => e.2.can_issue i) with _ | _ <;>
    rcases hr : VectorPipe.reg_read_stall p sbs i 0 with _ | _ <;> simp [hb, hr]

/-- A failing vector `try_issue` changes nothing: the pipe, the scoreboards
and the counters are returned as they were. -/
theorem vec_try_issue_fail_pure (p : VectorPipe) (sbs : SBs) (c : Counter)
    (i : Instruction) (h : vecTryIssueOk p sbs i = false) :
    VectorPipe.try_issue p sbs c i = (false, p, sbs, c) := by
  unfold vecTryIssueOk at h
  unfold VectorPipe.try_issue
  rcases hb : sbs.all (fun e => e.2.can_issue i) with _ | _ <;>
    rcases hr : VectorPipe.reg_read_stall p sbs i 0 with _ | _ <;>
    simp_all

/-- A successful vector `try_issue` does not touch the EIQ. -/
theorem vec_try_issue_eiq (p : VectorPipe) (sbs : SBs) (c : Counter)
    (i : Instruction) :
    (VectorPipe.try_issue p sbs c i).2.1.eiq = p.eiq := by
  unfold VectorPipe.try_issue
  rcases hb : sbs.all (fun e => e.2.can_issue i) with _ | _ <;>
    rcases hr : VectorPipe.reg_read_stall p sbs i 0 with _ | _ <;>
    simp [hb, hr] <;> split <;> rfl

/-- The vector pipe's issue loop rotates the failing prefix behind the
rest, exactly as the scalar pipe's does: starting from committed EIQ
contents `pre ++ i :: post` where every entry of `pre` fails
`vecTryIssueOk` and `i` succeeds, the loop ends in the state `try_issue`
produces from the queue `post ++ pre`. -/
theorem vec_issue_from_eiq_spec (pre : List Instruction) :
    ∀ (fuel : Nat) (p : VectorPipe) (sbs : SBs) (c : Counter)
      (i : Instruction) (post : List Instruction),
      pre.length + 1 ≤ fuel →
      p.eiq.committed = pre ++ i :: post →
      (∀ x ∈ pre, vecTryIssueOk p sbs x = false) →
      vecTryIssueOk p sbs i = true →
      VectorPipe.issue_from_eiq p sbs c fuel =
        (VectorPipe.try_issue
          { p with eiq := { p.eiq with committed := post ++ pre } } sbs c i).2 := by
  induction pre with
  | nil =>
    intro fuel p sbs c i post hf hq hpre hok
    match fuel, hf with
    | n + 1, _ =>
      rw [VectorPipe.issue_from_eiq, hq]
      simp only [List.nil_append]
      rcases hti : VectorPipe.try_issue
          { p with eiq := { p.eiq with committed := post } } sbs c i with ⟨b, rest⟩
      have hb : b = true := by
        have h2 := vec_try_issue_fst
          { p with eiq := { p.eiq with committed := post } } sbs c i
        rw [hti, vec_tryIssueOk_eiq] at h2
        simpa [hok] using h2
      subst hb
      simp [hti, List.append_nil]
  | cons x pre' ih =>
    intro fuel p sbs c i post hf hq hpre hok
    match fuel, hf with
    | n + 1, hf =>
      rw [VectorPipe.issue_from_eiq, hq]
      simp only [List.cons_append]
      have hx : vecTryIssueOk
          { p with eiq := { p.eiq with committed := pre' ++ i :: post } } sbs x
            = false := by
        rw [vec_tryIssueOk_eiq]
        exact hpre x (List.mem_cons_self x pre')
      rw [vec_try_issue_fail_pure _ _ _ _ hx]
      simp only
      rw [ih n _ sbs c i (post ++ [x]) (by simpa using Nat.succ_le_succ_iff.mp hf)
        (by simp)
        (fun y hy => (vec_tryIssueOk_eiq p _ sbs y).trans
          (hpre y (List.mem_cons_of_mem x hy)))
        ((vec_tryIssueOk_eiq p _ sbs i).trans hok)]
      simp [List.append_assoc]


/-- **C1, counterexample.**  The claim says flush drops pending items beyond
capacity and leaves the pending side empty.  On a capacity-1 queue with
pending `[10, 11]`, `flush` commits `10` but leaves `11` on the pending
side: the pending side is *not* empty and nothing was dropped. -/
theorem c1_flush_leaves_overflow_pending :
    (BQ.flush qC1).committed = [10] ∧ (BQ.flush qC1).buff = [11] ∧
      ¬(BQ.flush qC1).buff = [] := by
  refine ⟨rfl, rfl, ?_⟩; decide

/-- **C1, amended.**  For a `BufferedQueue` with capacity `s` whose committed
side is within capacity, `flush` commits pending items to the committed side
truncating at capacity `s`; the pending items beyond capacity are *kept* on
the pending side (in order), and the pending side is empty after `flush`
exactly when everything fits within the capacity. -/
theorem c1_flush_truncates_at_capacity (α : Type) (q : BQ α) (s : Nat)
    (hs : q.size = some s) (hle : q.committed.length ≤ s) :
    (BQ.flush q).committed = (q.committed ++ q.buff).take s ∧
    (BQ.flush q).buff = (q.committed ++ q.buff).drop s ∧
    ((BQ.flush q).buff = [] ↔ q.committed.length + q.buff.length ≤ s) := by
  by_cases h : q.committed.length + q.buff.length ≤ s
  · simp only [BQ.flush, hs, if_pos h]
    refine ⟨?_, ?_, ?_⟩
    · rw [List.take_of_length_le (by simpa using h)]
    · rw [List.drop_eq_nil_of_le (by simpa using h)]
    · simpa using h
  · simp only [BQ.flush, hs, if_neg h]
    refine ⟨?_, ?_, ?_⟩
    · rw [List.take_append_eq_append_take, List.take_of_length_le hle]
    · rw [List.drop_append_eq_append_drop, List.drop_eq_nil_of_le hle,
          List.nil_append]
    · simp only [List.drop_eq_nil_iff]
      omega

/-- Witness for C1 (amended): capacity 2, committed `[1]`, pending `[2, 3]`. -/
theorem c1_flush_truncates_at_capacity_witness :
    (BQ.flush (⟨[1], [2, 3], some 2⟩ : BQ Nat)).committed =
        (([1] : List Nat) ++ [2, 3]).take 2 ∧
    (BQ.flush (⟨[1], [2, 3], some 2⟩ : BQ Nat)).buff =
        (([1] : List Nat) ++ [2, 3]).drop 2 ∧
    ((BQ.flush (⟨[1], [2, 3], some 2⟩ : BQ Nat)).buff = [] ↔
        ([1] : List Nat).length + ([2, 3] : List Nat).length ≤ 2) :=
  c1_flush_truncates_at_capacity Nat ⟨[1], [2, 3], some 2⟩ 2 rfl (by decide)

/-- **C8.**  `flush` on an empty pending side is a no-op: the state is
unchanged, hence so is every observable query (`peek`, `len`, `full`,
`is_buffer_full`, iteration via `chain`). -/
theorem c8_flush_empty_pending_noop (α : Type) (q : BQ α) (h : q.buff = []) :
    BQ.flush q = q ∧ BQ.peek (BQ.flush q) = BQ.peek q ∧
    BQ.lenq (BQ.flush q) = BQ.lenq q ∧ BQ.full (BQ.flush q) = BQ.full q ∧
    BQ.is_buffer_full (BQ.flush q) = BQ.is_buffer_full q ∧
    BQ.chain (BQ.flush q) = BQ.chain q := by
  have heq : BQ.flush q = q := by
    unfold BQ.flush
    obtain ⟨c, b, s⟩ := q
    simp only at h
    subst h
    cases s <;> simp
  refine ⟨heq, ?_, ?_, ?_, ?_, ?_⟩ <;> rw [heq]

/-- Witness for C8: a concrete queue with empty pending side. -/
theorem c8_flush_empty_pending_noop_witness :
    BQ.flush (⟨[5], [], some 2⟩ : BQ Nat) = (⟨[5], [], some 2⟩ : BQ Nat) ∧
    BQ.peek (BQ.flush (⟨[5], [], some 2⟩ : BQ Nat)) =
      BQ.peek (⟨[5], [], some 2⟩ : BQ Nat) ∧
    BQ.lenq (BQ.flush (⟨[5], [], some 2⟩ : BQ Nat)) =
      BQ.lenq (⟨[5], [], some 2⟩ : BQ Nat) ∧
    BQ.full (BQ.flush (⟨[5], [], some 2⟩ : BQ Nat)) =
      BQ.full (⟨[5], [], some 2⟩ : BQ Nat) ∧
    BQ.is_buffer_full (BQ.flush (⟨[5], [], some 2⟩ : BQ Nat)) =
      BQ.is_buffer_full (⟨[5], [], some 2⟩ : BQ Nat) ∧
    BQ.chain (BQ.flush (⟨[5], [], some 2⟩ : BQ Nat)) =
      BQ.chain (⟨[5], [], some 2⟩ : BQ Nat) :=
  c8_flush_empty_pending_noop Nat ⟨[5], [], some 2⟩ rfl

/-- **C9.**  On an empty `BufferedQueue`, `peek` returns `None` while
`dequeue` is not total: it raises `IndexError` (from `deque.popleft`)
instead of returning `None`, despite `ConsumableQueue.dequeue`'s
`Optional[T]` return annotation (`interfaces.py` lines 40-42). -/
theorem c9_empty_peek_none_dequeue_raises (α : Type) (q : BQ α)
    (h : q.committed = []) :
    BQ.peek q = none ∧ BQ.dequeue q = .error .indexError := by
  obtain ⟨c, b, s⟩ := q
  simp only at h
  subst h
  exact ⟨rfl, rfl⟩

/-- Witness for C9: a concrete empty queue. -/
theorem c9_empty_peek_none_dequeue_raises_witness :
    BQ.peek (⟨[], [7], none⟩ : BQ Nat) = none ∧
    BQ.dequeue (⟨[], [7], none⟩ : BQ Nat) = .error .indexError :=
  c9_empty_peek_none_dequeue_raises Nat ⟨[], [7], none⟩ rfl

/-- **C4.**  `can_issue(i)` returns `True` exactly when `i` has no recorded
dependency entries at all, or every non-`None` producer in `rw[i]`, every
non-`None` producer in `ww[i]` and every waiter in every `wr[i][r]` set is
in the `issued` set. -/
theorem c4_can_issue_iff (sb : SB) (i : Instruction) :
    SB.can_issue sb i = true ↔ canIssueSpec sb i := by
  unfold SB.can_issue canIssueSpec
  by_cases h0 : (alookup i sb.rw_deps).isNone && (alookup i sb.ww_deps).isNone &&
      (alookup i sb.wr_deps).isNone
  · simp only [h0, if_true, true_iff]
    simp only [Bool.and_eq_true, Option.isNone_iff_eq_none] at h0
    exact Or.inl ⟨h0.1.1, h0.1.2, h0.2⟩
  · simp only [h0, Bool.false_eq_true, if_false]
    by_cases h1 : ((alookup i sb.rw_deps).getD []).any (fun rd =>
        match rd.2 with
        | some d => decide (d ∉ sb.issued)
        | none => false)
    · simp only [h1, if_true, Bool.false_eq_true, false_iff]
      rintro (⟨ha, hb, hc⟩ | ⟨ha, _, _⟩)
      · exact h0 (by simp [ha, hb, hc])
      · obtain ⟨rd, hrd, hviol⟩ := List.any_eq_true.mp h1
        match hd : rd.2 with
        | some d =>
          rw [hd] at hviol
          exact (by simpa using hviol : d ∉ sb.issued) (ha rd hrd d hd)
        | none => rw [hd] at hviol; exact absurd hviol (by simp)
    · simp only [h1, Bool.false_eq_true, if_false]
      by_cases h2 : ((alookup i sb.ww_deps).getD []).any (fun rd =>
          match rd.2 with
          | some d => decide (d ∉ sb.issued)
          | none => false)
      · simp only [h2, if_true, Bool.false_eq_true, false_iff]
        rintro (⟨ha, hb, hc⟩ | ⟨_, hb, _⟩)
        · exact h0 (by simp [ha, hb, hc])
        · obtain ⟨rd, hrd, hviol⟩ := List.any_eq_true.mp h2
          match hd : rd.2 with
          | some d =>
            rw [hd] at hviol
            exact (by simpa using hviol : d ∉ sb.issued) (hb rd hrd d hd)
          | none => rw [hd] at hviol; exact absurd hviol (by simp)
      · simp only [h2, Bool.false_eq_true, if_false]
        by_cases h3 : ((alookup i sb.wr_deps).getD []).any (fun rd =>
            rd.2.any (fun d => decide (d ∉ sb.issued)))
        · simp only [h3, if_true, Bool.false_eq_true, false_iff]
          rintro (⟨ha, hb, hc⟩ | ⟨_, _, hc⟩)
          · exact h0 (by simp [ha, hb, hc])
          · obtain ⟨rd, hrd, hviol⟩ := List.any_eq_true.mp h3
            obtain ⟨d, hd, hviol'⟩ := List.any_eq_true.mp hviol
            exact (by simpa using hviol' : d ∉ sb.issued) (hc rd hrd d hd)
        · simp only [h3, Bool.false_eq_true, if_false, true_iff]
          refine Or.inr ⟨?_, ?_, ?_⟩
          · intro rd hrd d hd
            by_contra hni
            exact h1 (List.any_eq_true.mpr ⟨rd, hrd, by simp [hd, hni]⟩)
          · intro rd hrd d hd
            by_contra hni
            exact h2 (List.any_eq_true.mpr ⟨rd, hrd, by simp [hd, hni]⟩)
          · intro rd hrd d hd
            by_contra hni
            exact h3 (List.any_eq_true.mpr
              ⟨rd, hrd, List.any_eq_true.mpr ⟨d, hd, by simp [hni]⟩⟩)

/-- **C3, counterexample.**  With two slices, the input operand `v1` of
`vwadd.vv` (with `emul = max_emul / 2`) gets *trailing* `None`s
(`[v1.0, None, v1.1, None]`), not the leading `None`s the claim fixes;
dually the output operand `v4` of `vnsra.wv` gets *leading* `None`s. -/
theorem c3_interleave_direction_swapped :
    input_seq 2 instrC3in "v1" = interleaveTrail ["v1.0", "v1.1"] ∧
    input_seq 2 instrC3in "v1" ≠ interleaveLead ["v1.0", "v1.1"] ∧
    output_seq 2 instrC3out "v4" = interleaveLead ["v4.0", "v4.1"] ∧
    output_seq 2 instrC3out "v4" ≠ interleaveTrail ["v4.0", "v4.1"] := by
  refine ⟨by decide, by decide, by decide, by decide⟩

/-- **C3, amended.**  For a vector register operand with `emul` half of
`max_emul` (and `emul > 0`, excluding the fractional case
`slices < 1 / emul` in which no interleaving happens), `vec_reg_seq`
interleaves `None`s in the direction opposite to the claim's: each real
token of an *input* operand is followed by a `None` (trailing), and each
real token of an *output* operand is preceded by one (leading). -/
theorem c3_interleave_trailing_for_inputs (slices : Nat) (reg : String)
    (emul max_emul : ℚ) (hpos : 0 < emul) (hhalf : max_emul = 2 * emul)
    (hslices : ¬(emul < 1 ∧ (slices : ℚ) < 1 / emul)) :
    vec_reg_seq slices reg true emul max_emul =
      interleaveTrail (vec_reg_base_seq slices reg emul) ∧
    vec_reg_seq slices reg false emul max_emul =
      interleaveLead (vec_reg_base_seq slices reg emul) := by
  have hne : ¬(emul = max_emul ∨ (emul < 1 ∧ (slices : ℚ) < 1 / emul)) := by
    rintro (h | h)
    · rw [hhalf] at h; nlinarith
    · exact hslices h
  constructor
  · simp only [vec_reg_seq, if_neg hne, interleaveTrail]
    rfl
  · simp only [vec_reg_seq, if_neg hne, interleaveLead]
    rfl

/-- Witness for C3 (amended): `slices = 2`, `reg = v2`, `emul = 1`,
`max_emul = 2`. -/
theorem c3_interleave_trailing_for_inputs_witness :
    vec_reg_seq 2 "v2" true 1 2 = interleaveTrail (vec_reg_base_seq 2 "v2" 1) ∧
    vec_reg_seq 2 "v2" false 1 2 = interleaveLead (vec_reg_base_seq 2 "v2" 1) :=
  c3_interleave_trailing_for_inputs 2 "v2" 1 2 (by norm_num) (by norm_num)
    (by norm_num)

/-- **C6, counterexample.**  After `retired_instruction_count` has remained
unchanged for exactly 100 consecutive completed cycles the simulation has
*not* terminated (the watchdog count is 100, not `> 100`); it exits only on
the 101st such cycle. -/
theorem c6_watchdog_alive_after_100 :
    watchdog_run 0 100 = .ok (0, 100) ∧
    watchdog_run 0 101 = .error (.sysExit 1) :=
  ⟨rfl, rfl⟩

/-- **C6, amended.**  The simulation keeps running as long as
`retired_instruction_count` has been unchanged for at most
`deadlock_threshold = 100` consecutive completed cycles, and terminates
fatally (state dump, `sys.exit(1)`) on the cycle that pushes the count
strictly past the threshold — i.e. after 101 consecutive unchanged
cycles. -/
theorem c6_watchdog_exits_strictly_after_threshold (r n : Nat) :
    watchdog_run r n =
      if n ≤ deadlock_threshold then .ok (r, n) else .error (.sysExit 1) := by
  induction n with
  | zero => simp [watchdog_run, deadlock_threshold]
  | succ n ih =>
    rw [watchdog_run, ih]
    simp only [deadlock_threshold] at *
    by_cases h : n ≤ 100
    · rw [if_pos h]
      show watchdog_update r n r = _
      unfold watchdog_update deadlock_threshold
      rw [if_pos rfl]
      by_cases h2 : n + 1 > 100
      · rw [if_pos h2, if_neg (by omega)]
      · rw [if_neg h2, if_pos (by omega)]
    · rw [if_neg h, if_neg (by omega)]

/-- **C10.**  During a tick in which the pipe is ready, each committed EIQ
entry that fails `try_issue` is popped from the front and re-appended at
the tail before the next entry is tried — in the scalar pipe's issue loop
(scalar_pipe.py lines 201-208) and in the vector pipe's identical loop
(vector_pipe.py lines 270-277) alike; hence when the entry after a failing
prefix is the one that issues, the committed EIQ afterwards is
`post ++ pre` — the preceding entries end up behind the remaining ones, a
rotation (by the prefix length) of the queue minus the issued entry rather
than the original FIFO order. -/
theorem c10_failed_eiq_entries_rotate (p : ScalarPipe) (sbs : SBs)
    (c : Counter) (pre post : List Instruction) (i : Instruction)
    (v : VectorPipe) (vsbs : SBs) (cv : Counter)
    (vpre vpost : List Instruction) (j : Instruction)
    (hready : p.is_ready = true)
    (hq : p.eiq.committed = pre ++ i :: post)
    (hpre : ∀ x ∈ pre, tryIssueOk sbs x = false)
    (hok : tryIssueOk sbs i = true)
    (hvready : v.is_ready = true)
    (hvq : v.eiq.committed = vpre ++ j :: vpost)
    (hvpre : ∀ x ∈ vpre, vecTryIssueOk v vsbs x = false)
    (hvok : vecTryIssueOk v vsbs j = true) :
    ((ScalarPipe.issue_from_eiq p sbs c p.eiq.committed.length).1.eiq.committed
        = post ++ pre ∧
     (ScalarPipe.issue_from_eiq p sbs c p.eiq.committed.length).1.eiq.committed
        = (pre ++ post).rotate pre.length) ∧
    ((VectorPipe.issue_from_eiq v vsbs cv v.eiq.committed.length).1.eiq.committed
        = vpost ++ vpre ∧
     (VectorPipe.issue_from_eiq v vsbs cv v.eiq.committed.length).1.eiq.committed
        = (vpre ++ vpost).rotate vpre.length) := by
  constructor
  · have hlen : pre.length + 1 ≤ p.eiq.committed.length := by
      rw [hq]; simp
    have h1 := issue_from_eiq_spec pre p.eiq.committed.length p sbs c i post
      hlen hq hpre hok
    have h2 : (ScalarPipe.issue_from_eiq p sbs c p.eiq.committed.length).1.eiq.committed
        = post ++ pre := by
      rw [h1]
      have h3 := try_issue_eiq
        { p with eiq := { p.eiq with committed := post ++ pre } } sbs c i
      rw [h3]
    refine ⟨h2, ?_⟩
    rw [h2, List.rotate_eq_drop_append_take (by simp),
      List.drop_left, List.take_left]
  · have hlen : vpre.length + 1 ≤ v.eiq.committed.length := by
      rw [hvq]; simp
    have h1 := vec_issue_from_eiq_spec vpre v.eiq.committed.length v vsbs cv j
      vpost hlen hvq hvpre hvok
    have h2 : (VectorPipe.issue_from_eiq v vsbs cv v.eiq.committed.length).1.eiq.committed
        = vpost ++ vpre := by
      rw [h1]
      have h3 := vec_try_issue_eiq
        { v with eiq := { v.eiq with committed := vpost ++ vpre } } vsbs cv j
      rw [h3]
    refine ⟨h2, ?_⟩
    rw [h2, List.rotate_eq_drop_append_take (by simp),
      List.drop_left, List.take_left]

/-- Witness for C10: on `pC10` and `vC10` (committed EIQ `[i1C10, i2C10]`,
where `i1C10` is blocked on `sbsC10` and `i2C10` issues), both pipes' issue
loops leave the committed EIQ as `[i1C10]`. -/
theorem c10_failed_eiq_entries_rotate_witness :
    ((ScalarPipe.issue_from_eiq pC10 sbsC10 {} pC10.eiq.committed.length).1.eiq.committed
        = [] ++ [i1C10] ∧
     (ScalarPipe.issue_from_eiq pC10 sbsC10 {} pC10.eiq.committed.length).1.eiq.committed
        = ([i1C10] ++ []).rotate [i1C10].length) ∧
    ((VectorPipe.issue_from_eiq vC10 sbsC10 {} vC10.eiq.committed.length).1.eiq.committed
        = [] ++ [i1C10] ∧
     (VectorPipe.issue_from_eiq vC10 sbsC10 {} vC10.eiq.committed.length).1.eiq.committed
        = ([i1C10] ++ []).rotate [i1C10].length) :=
  c10_failed_eiq_entries_rotate pC10 sbsC10 {} [i1C10] [] i2C10
    vC10 sbsC10 {} [i1C10] [] i2C10
    (by decide) (by decide) (by decide) (by decide)
    (by decide) (by decide) (by decide) (by decide)

/-- **C5.**  `ScalarPipe.try_dispatch` returns `False` exactly when the
EIQ's buffered side is full at the time of the call, and in that case it
changes nothing: the pipe state (EIQ, stages, WBQ, memory, stall maps),
the scoreboards and the counters are all returned unchanged. -/
theorem c5_try_dispatch_false_iff_eiq_full (p : ScalarPipe) (sbs : SBs)
    (c : Counter) (i : Instruction) :
    ((ScalarPipe.try_dispatch p sbs c i).1 = false ↔
      p.eiq.is_buffer_full = true) ∧
    (p.eiq.is_buffer_full = true →
      ScalarPipe.try_dispatch p sbs c i = (false, p, sbs, c)) := by
  unfold ScalarPipe.try_dispatch
  by_cases h : p.eiq.is_buffer_full
  · simp [h]
  · simp [h]

/-- Witness for C5: on `pC5` (capacity-1 EIQ holding one committed entry,
so the buffered side is full), `try_dispatch` refuses and returns every
piece of state unchanged. -/
theorem c5_try_dispatch_false_iff_eiq_full_witness :
    ScalarPipe.try_dispatch pC5 sbsC10 {} i2C10 = (false, pC5, sbsC10, {}) :=
  (c5_try_dispatch_false_iff_eiq_full pC5 sbsC10 {} i2C10).2 (by decide)

/-! ### The schedule and execute units only ever add to the retired count -/

@[simp] theorem foldl_bumpUtilOccupied_retired (l : List (String × BQ Instruction))
    (c : Counter) :
    (l.foldl (fun c e => c.bumpUtilOccupied e.1 e.2.committed.length) c).retired_instruction_count
      = c.retired_instruction_count := by
  induction l generalizing c with
  | nil => rfl
  | cons e l ih => simp [List.foldl_cons, ih]

@[simp] theorem sched_tock_retired (sc : Sched) (c : Counter) :
    (Sched.tock sc c).2.retired_instruction_count =
      c.retired_instruction_count := by
  simp only [Sched.tock]
  repeat' split
  all_goals simp

theorem schedLoop_retired_mono (conf : Instruction → Instruction → Bool)
    (ex : Exec) :
    ∀ (n : Nat) (sc : Sched) (fu : Fetch) (c : Counter) (sc' : Sched)
      (fu' : Fetch) (c' : Counter),
    Sched.schedLoop conf ex sc fu c n = .ok (sc', fu', c') →
    c.retired_instruction_count ≤ c'.retired_instruction_count := by
  intro n
  induction n with
  | zero =>
    intro sc fu c sc' fu' c' h
    simp only [Sched.schedLoop, Except.ok.injEq, Prod.mk.injEq] at h
    rw [← h.2.2]
  | succ n ih =>
    intro sc fu c sc' fu' c' h
    simp only [Sched.schedLoop] at h
    repeat' split at h
    all_goals
      first
      | ((cases h) <;> simp)
      | (simp only [Except.ok.injEq, Prod.mk.injEq] at h
         rw [← h.2.2]
         simp)
      | (have hm := ih _ _ _ _ _ _ h; simp at hm; omega)
      | (have hm := ih _ _ _ _ _ _ h; exact hm)

theorem sched_tick_retired_mono (conf : Instruction → Instruction → Bool)
    (ex : Exec) (sc : Sched) (fu : Fetch) (c : Counter) (sc' : Sched)
    (fu' : Fetch) (c' : Counter)
    (h : Sched.tick conf ex sc fu c = .ok (sc', fu', c')) :
    c.retired_instruction_count ≤ c'.retired_instruction_count := by
  rw [Sched.tick] at h
  split at h
  · simp only [Except.ok.injEq, Prod.mk.injEq] at h
    rw [← h.2.2]
  · exact schedLoop_retired_mono conf ex _ _ _ _ _ _ _ h

theorem exec_tickPipeList_retired (ps : List Pipe) :
    ∀ (sbs : SBs) (c : Counter),
    (Exec.tickPipeList ps sbs c).2.2.1.retired_instruction_count =
      c.retired_instruction_count := by
  induction ps with
  | nil => intro sbs c; rfl
  | cons p ps ih =>
    intro sbs c
    rw [Exec.tickPipeList]
    simp [ih]

theorem exec_tickPipes_retired (pipes : List (String × List Pipe)) :
    ∀ (sbs : SBs) (c : Counter),
    (Exec.tickPipes pipes sbs c).2.2.1.retired_instruction_count =
      c.retired_instruction_count := by
  induction pipes with
  | nil => intro sbs c; rfl
  | cons kps rest ih =>
    intro sbs c
    rw [Exec.tickPipes]
    simp [ih, exec_tickPipeList_retired]

theorem exec_tryPipes_retired (i : Instruction) (ps : List Pipe) :
    ∀ (sbs : SBs) (c : Counter),
    (Exec.tryPipes i ps sbs c).2.2.2.retired_instruction_count =
      c.retired_instruction_count := by
  induction ps with
  | nil => intro sbs c; rfl
  | cons p ps ih =>
    intro sbs c
    rw [Exec.tryPipes]
    split
    · simp_all
    · simp [ih]

theorem exec_dispatch_instruction_retired (ex : Exec) (sbs : SBs)
    (c : Counter) (i : Instruction) (b : Bool) (ex' : Exec) (sbs' : SBs)
    (c' : Counter)
    (h : Exec.dispatch_instruction ex sbs c i = .ok (b, ex', sbs', c')) :
    c'.retired_instruction_count = c.retired_instruction_count := by
  rw [Exec.dispatch_instruction] at h
  split at h
  · cases h
  · simp only [Except.ok.injEq, Prod.mk.injEq] at h
    rw [← h.2.2.2]
    exact exec_tryPipes_retired i _ sbs c

theorem exec_dispatchQueue_retired (q : List Instruction) :
    ∀ (ex : Exec) (sbs : SBs) (c : Counter) (ex' : Exec) (sbs' : SBs)
      (c' : Counter) (q' : List Instruction),
    Exec.dispatchQueue ex sbs c q = .ok (ex', sbs', c', q') →
    c'.retired_instruction_count = c.retired_instruction_count := by
  induction q with
  | nil =>
    intro ex sbs c ex' sbs' c' q' h
    simp only [Exec.dispatchQueue, Except.ok.injEq, Prod.mk.injEq] at h
    rw [← h.2.2.1]
  | cons i rest ih =>
    intro ex sbs c ex' sbs' c' q' h
    rw [Exec.dispatchQueue] at h
    rcases hdq : Exec.dispatch_instruction ex sbs c i with e | ⟨(_ | _), ex2, sbs2, c2⟩
    · rw [hdq] at h; cases h
    · -- dispatch failed: the loop stops with the state as returned
      simp only [hdq] at h
      have h1 := exec_dispatch_instruction_retired _ _ _ _ _ _ _ _ hdq
      simp only [Except.ok.injEq, Prod.mk.injEq] at h
      rw [← h.2.2.1]
      exact h1
    · -- dispatch succeeded: pop and continue
      simp only [hdq] at h
      have h1 := exec_dispatch_instruction_retired _ _ _ _ _ _ _ _ hdq
      have h2 := ih _ _ _ _ _ _ _ h
      omega

theorem exec_dispatchAll_retired (qs : List (String × BQ Instruction)) :
    ∀ (ex : Exec) (sbs : SBs) (c : Counter) (ex' : Exec) (sbs' : SBs)
      (c' : Counter) (qs' : List (String × BQ Instruction)),
    Exec.dispatchAll ex sbs c qs = .ok (ex', sbs', c', qs') →
    c'.retired_instruction_count = c.retired_instruction_count := by
  induction qs with
  | nil =>
    intro ex sbs c ex' sbs' c' qs' h
    simp only [Exec.dispatchAll, Except.ok.injEq, Prod.mk.injEq] at h
    rw [← h.2.2.1]
  | cons e rest ih =>
    intro ex sbs c ex' sbs' c' qs' h
    rw [Exec.dispatchAll] at h
    rcases hq1 : Exec.dispatchQueue ex sbs c e.2.committed
      with e1 | ⟨ex2, sbs2, c2, rem⟩
    · rw [hq1] at h; cases h
    · simp only [hq1] at h
      rcases hq2 : Exec.dispatchAll ex2 sbs2 c2 rest
        with e2 | ⟨ex3, sbs3, c3, rest'⟩
      · rw [hq2] at h; cases h
      · simp only [hq2] at h
        have h1 := exec_dispatchQueue_retired _ _ _ _ _ _ _ _ hq1
        have h2 := ih _ _ _ _ _ _ _ hq2
        simp only [Except.ok.injEq, Prod.mk.injEq] at h
        rw [← h.2.2.1]
        omega

theorem exec_tick_retired_mono (ex : Exec) (sbs : SBs) (sc : Sched)
    (fu : Fetch) (c : Counter) (ex' : Exec) (sbs' : SBs) (sc' : Sched)
    (fu' : Fetch) (c' : Counter)
    (h : Exec.tick ex sbs sc fu c = .ok (ex', sbs', sc', fu', c')) :
    c.retired_instruction_count ≤ c'.retired_instruction_count := by
  simp only [Exec.tick] at h
  split at h
  · cases h
  · split at h
    · cases h
    · rename_i heq
      have hd := exec_dispatchAll_retired _ _ _ _ _ _ _ _ heq
      have ht := exec_tickPipes_retired ex.pipes sbs c
      simp only [Except.ok.injEq, Prod.mk.injEq] at h
      rw [← h.2.2.2.2]
      simp only [addRetired_retired, hd, ht]
      omega

theorem exec_tockFold_retired (ps : List Pipe) :
    ∀ (acc : List Pipe × Counter × List Instruction),
    ((ps.foldl
      (fun (acc : List Pipe × Counter × List Instruction) p =>
        let t := Pipe.tock p acc.2.1
        (acc.1 ++ [t.1], t.2, acc.2.2 ++ Pipe.retired_instrs t.1))
      acc).2.1).retired_instruction_count = acc.2.1.retired_instruction_count := by
  induction ps with
  | nil => intro acc; rfl
  | cons p ps ih =>
    intro acc
    rw [List.foldl_cons]
    rw [ih]
    simp

theorem exec_tockPipes_retired (pipes : List (String × List Pipe)) :
    ∀ (c : Counter),
    (Exec.tockPipes pipes c).2.1.retired_instruction_count =
      c.retired_instruction_count := by
  induction pipes with
  | nil => intro c; rfl
  | cons kps rest ih =>
    intro c
    rw [Exec.tockPipes]
    simp [ih, exec_tockFold_retired]

theorem exec_tock_retired_mono (ex : Exec) (sbs : SBs) (c : Counter) :
    c.retired_instruction_count ≤
      (Exec.tock ex sbs c).2.2.retired_instruction_count := by
  simp only [Exec.tock]
  simp [exec_tockPipes_retired]

/-- **C7.**  `retired_instruction_count` is monotonically non-decreasing
across every tick and tock of every unit: the fetch unit, the sched unit
(whose tick adds one per retired NOP), the exec unit (whose tick and tock
add the pipes' retired counts), and the scalar/vector pipelines' tick,
tock and `try_dispatch` (which never touch it).  No modelled operation of
the simulation decreases it. -/
theorem c7_retired_monotone :
    (∀ (fu : Fetch) (c : Counter),
      c.retired_instruction_count ≤ (Fetch.tick fu c).2.retired_instruction_count) ∧
    (∀ (fu : Fetch) (c : Counter),
      c.retired_instruction_count ≤ (Fetch.tock fu c).2.retired_instruction_count) ∧
    (∀ (conf : Instruction → Instruction → Bool) (ex : Exec) (sc : Sched)
       (fu : Fetch) (c : Counter) (sc' : Sched) (fu' : Fetch) (c' : Counter),
      Sched.tick conf ex sc fu c = .ok (sc', fu', c') →
      c.retired_instruction_count ≤ c'.retired_instruction_count) ∧
    (∀ (sc : Sched) (c : Counter),
      c.retired_instruction_count ≤ (Sched.tock sc c).2.retired_instruction_count) ∧
    (∀ (ex : Exec) (sbs : SBs) (sc : Sched) (fu : Fetch) (c : Counter)
       (ex' : Exec) (sbs' : SBs) (sc' : Sched) (fu' : Fetch) (c' : Counter),
      Exec.tick ex sbs sc fu c = .ok (ex', sbs', sc', fu', c') →
      c.retired_instruction_count ≤ c'.retired_instruction_count) ∧
    (∀ (ex : Exec) (sbs : SBs) (c : Counter),
      c.retired_instruction_count ≤ (Exec.tock ex sbs c).2.2.retired_instruction_count) ∧
    (∀ (p : Pipe) (sbs : SBs) (c : Counter),
      c.retired_instruction_count ≤ (Pipe.tick p sbs c).2.2.retired_instruction_count) ∧
    (∀ (p : Pipe) (c : Counter),
      c.retired_instruction_count ≤ (Pipe.tock p c).2.retired_instruction_count) ∧
    (∀ (p : Pipe) (sbs : SBs) (c : Counter) (i : Instruction),
      c.retired_instruction_count ≤
        (Pipe.try_dispatch p sbs c i).2.2.2.retired_instruction_count) := by
  refine ⟨?_, ?_, ?_, ?_, ?_, ?_, ?_, ?_, ?_⟩
  · intro fu c; simp
  · intro fu c; simp
  · intro conf ex sc fu c sc' fu' c' h
    exact sched_tick_retired_mono conf ex sc fu c sc' fu' c' h
  · intro sc c; simp
  · intro ex sbs sc fu c ex' sbs' sc' fu' c' h
    exact exec_tick_retired_mono ex sbs sc fu c ex' sbs' sc' fu' c' h
  · intro ex sbs c; exact exec_tock_retired_mono ex sbs c
  · intro p sbs c; simp
  · intro p c; simp
  · intro p sbs c i; simp

/-- Witness for C7: every conjunct applied at a concrete minimal system
(the implications' equation hypotheses are discharged by `rfl`). -/
theorem c7_retired_monotone_witness :
    (({} : Counter).retired_instruction_count ≤
      (Fetch.tick fu0 {}).2.retired_instruction_count) ∧
    (({} : Counter).retired_instruction_count ≤
      (Fetch.tock fu0 {}).2.retired_instruction_count) ∧
    (({} : Counter).retired_instruction_count ≤
      ({} : Counter).retired_instruction_count) ∧
    (({} : Counter).retired_instruction_count ≤
      (Sched.tock sc0 {}).2.retired_instruction_count) ∧
    (({} : Counter).retired_instruction_count ≤
      (({} : Counter).addRetired 0).retired_instruction_count) ∧
    (({} : Counter).retired_instruction_count ≤
      (Exec.tock ex0 [] {}).2.2.retired_instruction_count) ∧
    (({} : Counter).retired_instruction_count ≤
      (Pipe.tick (.scalar pC10) [] {}).2.2.retired_instruction_count) ∧
    (({} : Counter).retired_instruction_count ≤
      (Pipe.tock (.scalar pC10) {}).2.retired_instruction_count) ∧
    (({} : Counter).retired_instruction_count ≤
      (Pipe.try_dispatch (.scalar pC10) [] {} i0C10).2.2.2.retired_instruction_count) := by
  obtain ⟨h1, h2, h3, h4, h5, h6, h7, h8, h9⟩ := c7_retired_monotone
  exact ⟨h1 fu0 {}, h2 fu0 {},
    h3 conf0 ex0 sc0 fu0 {} { sc0 with phase := some Phase.TICK } fu0 {} rfl,
    h4 sc0 {},
    h5 ex0 [] sc0 fu0 {} { ex0 with phase := some Phase.TICK } [] sc0 fu0
      (({} : Counter).addRetired 0) rfl,
    h6 ex0 [] {}, h7 (.scalar pC10) [] {}, h8 (.scalar pC10) {},
    h9 (.scalar pC10) [] {} i0C10⟩

/-- **C2.**  Under the no-prediction policy (the only one in which the
source calls it — it asserts so), `FetchUnit.branch_resolved` *always*
raises `AttributeError`: it evaluates `self._queue.buff`, but
`BufferedQueue` defines the pending deque as `_buff` and has no `buff`
attribute.  No `None` hole is dropped and the stall is never cleared; the
simulation aborts instead. -/
theorem c2_branch_resolved_attribute_error (fu : Fetch)
    (h : fu.branch_prediction = BP.nopred) :
    Fetch.branch_resolved fu = .error (.attributeError "buff") := by
  unfold Fetch.branch_resolved
  rw [if_neg (by simp [h]), if_pos (by decide)]

/-- Witness for C2: the failing input `fuC2` (no-prediction policy, `None`
holes at the head of both queue sides, stalled fetch, TOCK phase). -/
theorem c2_branch_resolved_attribute_error_witness :
    Fetch.branch_resolved fuC2 = .error (.attributeError "buff") :=
  c2_branch_resolved_attribute_error fuC2 rfl

end TBM
